import Mathlib

/-!
Verification of the `rustycs` 2D rigid-body physics engine.

Shallow embedding of the engine's data model and collision pipeline in Lean 4.
All scalar arithmetic of the Rust source (`f32`) is modelled exactly over `ℚ`;
the machine operations that are not exact rational functions (square root,
cosine, sine, the random unit-vector generator, and the constant `PI`) are
threaded through every definition as an explicit `FloatOps` record, so every
definition stays computable and theorems can pin those operations down with
explicit hypotheses where a claim depends on them.

Conventions:
* Rust `HashMap<(usize,usize), Manifold>` is modelled as a list of manifolds
  in insertion order (keys inserted in one tick are pairwise distinct, and the
  whole map is cleared every tick, so only the iteration order is a choice).
* Rust panics that the source treats as unreachable under its construction
  invariants (`expect` on a normalization of a constructed polygon edge, the
  contact search on bodies with at least one vertex) are modelled by returning
  a junk value; the theorems that touch those paths carry hypotheses ruling
  the degenerate inputs out.  The one panic that a claim is about - the
  out-of-bounds slice copy in `Polygon::new` - is modelled explicitly with
  `Except`.
* The wall-clock field `last_step_duration` of `World` is omitted: it is a
  diagnostic time measurement with no effect on the simulation state.
-/

namespace Rustycs

/-- Abstract machine operations of the `f32` source that are not exact
rational functions: `sq` models `f32::sqrt`, `cosq`/`sinq` model
`f32::cos`/`f32::sin`, `rnd` models the unit vector drawn by
`Vector2::rand_normal`, and `pi` models `std::f32::consts::PI`. -/
structure FloatOps where
  sq : ℚ → ℚ
  cosq : ℚ → ℚ
  sinq : ℚ → ℚ
  rnd : ℚ × ℚ
  pi : ℚ
deriving Inhabited

/-- Rust `maths/vector2.rs`: the 2D vector type. -/
structure Vector2 where
  x : ℚ
  y : ℚ
deriving DecidableEq, Inhabited

namespace Vector2

def ZERO : Vector2 := ⟨0, 0⟩
def NORMAL_UP : Vector2 := ⟨0, 1⟩
def NORMAL_DOWN : Vector2 := ⟨0, -1⟩
def NORMAL_LEFT : Vector2 := ⟨-1, 0⟩
def NORMAL_RIGHT : Vector2 := ⟨1, 0⟩

instance : Add Vector2 := ⟨fun a b => ⟨a.x + b.x, a.y + b.y⟩⟩
instance : Sub Vector2 := ⟨fun a b => ⟨a.x - b.x, a.y - b.y⟩⟩
instance : HMul Vector2 ℚ Vector2 := ⟨fun v q => ⟨v.x * q, v.y * q⟩⟩
instance : HMul ℚ Vector2 Vector2 := ⟨fun q v => ⟨q * v.x, q * v.y⟩⟩

/-- Rust `cross(f, vec)`: scalar x vector cross product. -/
def cross (f : ℚ) (vec : Vector2) : Vector2 := ⟨-f * vec.y, f * vec.x⟩

/-- Rust `dot(a, b)`. -/
def dot (a b : Vector2) : ℚ := a.x * b.x + a.y * b.y

/-- Rust `Vector2::abs`. -/
def abs (v : Vector2) : Vector2 := ⟨|v.x|, |v.y|⟩

/-- Rust `Vector2::len_squared`. -/
def len_squared (v : Vector2) : ℚ := v.x * v.x + v.y * v.y

/-- Rust `Vector2::len`: machine sqrt of the squared length. -/
def len (F : FloatOps) (v : Vector2) : ℚ := F.sq v.len_squared

/-- Rust `Vector2::dotted`. -/
def dotted (v other : Vector2) : ℚ := v.x * other.x + v.y * other.y

/-- Rust `Vector2::crossed`. -/
def crossed (v other : Vector2) : ℚ := v.x * other.y - v.y * other.x

/-- Rust `Vector2::tangent`. -/
def tangent (v : Vector2) : Vector2 := ⟨-v.y, v.x⟩

/-- Rust `Vector2::normalize`: `None` when the (machine) length is zero. -/
def normalize (F : FloatOps) (v : Vector2) : Option Vector2 :=
  if v.len F = 0 then none else some (v * (1 / v.len F))

/-- Rust `Vector2::normalize_or_zero`. -/
def normalize_or_zero (F : FloatOps) (v : Vector2) : Vector2 :=
  if v.len F = 0 then ZERO else v * (1 / v.len F)

/-- Rust `Vector2::normalize_or_random`: the random unit vector is the `rnd`
oracle of `FloatOps`. -/
def normalize_or_random (F : FloatOps) (v : Vector2) : Vector2 :=
  if v.len F = 0 then ⟨F.rnd.1, F.rnd.2⟩ else v * (1 / v.len F)

/-- Rust `Vector2::min`. -/
def vmin (v1 v2 : Vector2) : Vector2 := ⟨min v1.x v2.x, min v1.y v2.y⟩

/-- Rust `Vector2::max`. -/
def vmax (v1 v2 : Vector2) : Vector2 := ⟨max v1.x v2.x, max v1.y v2.y⟩

/-- Rust `Vector2::clamp`: `max(min(max, self), min)` componentwise. -/
def clamp (v lo hi : Vector2) : Vector2 := vmax (vmin hi v) lo

/-- Rust `Vector2::distance_squared`. -/
def distance_squared (v1 v2 : Vector2) : ℚ := (v1 - v2).len_squared

/-- Rust `Vector2::rotated`, with machine cosine and sine. -/
def rotated (F : FloatOps) (v : Vector2) (angle : ℚ) : Vector2 :=
  ⟨v.x * F.cosq angle - v.y * F.sinq angle,
   v.x * F.sinq angle + v.y * F.cosq angle⟩

end Vector2

export Vector2 (ZERO NORMAL_UP NORMAL_DOWN NORMAL_LEFT NORMAL_RIGHT dot cross)

/-- Rust `collision/hitbox.rs`: axis-aligned bounding box in body-local space. -/
structure Hitbox where
  min : Vector2
  max : Vector2
deriving DecidableEq, Inhabited

namespace Hitbox

def new (min max : Vector2) : Hitbox := ⟨min, max⟩

/-- Rust `&Hitbox + Vector2`: translate the hitbox by a world offset. -/
instance : HAdd Hitbox Vector2 Hitbox :=
  ⟨fun h v => Hitbox.new (h.min + v) (h.max + v)⟩

end Hitbox

/-- Rust `material.rs`. -/
structure Material where
  density : ℚ
  friction : ℚ
  restitution : ℚ
  name : String
deriving DecidableEq, Inhabited

namespace Material

def new (density friction restitution : ℚ) (t : String) : Material :=
  ⟨density, friction, restitution, t⟩

def DEFAULT : Material := Material.new (1/10) (6/10) (5/10) "default"

end Material

/-- Rust `transforms.rs`. -/
structure Transform where
  location : Vector2
  velocity : Vector2
  angular_velocity : ℚ
deriving DecidableEq, Inhabited

namespace Transform

def new (x y : ℚ) : Transform := ⟨⟨x, y⟩, ZERO, 0⟩

end Transform

/-- Rust `shapes/circle.rs`. -/
structure Circle where
  r : ℚ
  visual_point : Vector2
  area : ℚ
deriving DecidableEq, Inhabited

namespace Circle

/-- Rust `Circle::new`: the area uses the machine constant `PI`. -/
def new (F : FloatOps) (r : ℚ) : Circle := ⟨r, ⟨0, r⟩, r * r * F.pi⟩

def get_hitbox (c : Circle) : Hitbox := Hitbox.new ⟨-c.r, -c.r⟩ ⟨c.r, c.r⟩

end Circle

/-- Rust `shapes/aabb.rs`. -/
structure AABB where
  min : Vector2
  max : Vector2
  area : ℚ
  corners : List Vector2
deriving DecidableEq, Inhabited

namespace AABB

/-- Rust `AABB::generate_corners`: top-left, top-right, bottom-right, bottom-left. -/
def generate_corners (width height : ℚ) : List Vector2 :=
  [⟨-width / 2, height / 2⟩, ⟨width / 2, height / 2⟩,
   ⟨width / 2, -height / 2⟩, ⟨-width / 2, -height / 2⟩]

def new (width height : ℚ) : AABB :=
  let corners := generate_corners width height
  { min := corners.getD 3 ZERO
    max := corners.getD 1 ZERO
    area := width * height
    corners := corners }

def get_hitbox (r : AABB) : Hitbox := Hitbox.new r.min r.max

end AABB

/-- Rust `shapes/polygon.rs`: the vertex store is the meaningful prefix of the
Rust 8-slot array together with the vertex count. -/
structure Polygon where
  area : ℚ
  vertices : List Vector2 × Nat
deriving DecidableEq, Inhabited

namespace Polygon

/-- Rust `Polygon::area` (shoelace); named `areaOf` here because the structure
field `area` occupies the name. -/
def areaOf (vertices : List Vector2) : ℚ :=
  let n := vertices.length
  |((List.range n).foldl (fun acc i =>
      let v := vertices.getD i ZERO
      let vn := vertices.getD ((i + 1) % n) ZERO
      acc + (v.x * vn.y - vn.x * v.y)) 0)| * (1/2)

/-- Rust `polygon::centroid`. -/
def centroid (vertices : List Vector2) : Vector2 :=
  let inv : ℚ := 1 / (vertices.length : ℚ)
  let s := vertices.foldl (fun acc v => (acc.1 + v.x, acc.2 + v.y)) ((0:ℚ), (0:ℚ))
  ⟨s.1 * inv, s.2 * inv⟩

/-- One step of the `Polygon::is_convex` sign state machine; `none` is the
early `return false`. -/
def convexStep (verts : List Vector2) (n : Nat) (st : Option Int) (idx : Nat) :
    Option Int :=
  match st with
  | none => none
  | some state =>
    let a := verts.getD idx ZERO
    let b := verts.getD ((idx + 1) % n) ZERO
    let c := verts.getD ((idx + 2) % n) ZERO
    let crossproduct := (b - a).crossed (c - b)
    if state = 0 then
      some (if crossproduct < 0 then -1 else if crossproduct > 0 then 1 else 0)
    else if state = 1 then
      if crossproduct < 0 then none else some 1
    else
      if crossproduct > 0 then none else some state

/-- Rust `Polygon::is_convex`. -/
def is_convex (p : Polygon) : Bool :=
  let (verts, n) := p.vertices
  ((List.range n).foldl (convexStep verts n) (some 0)).isSome

/-- Rust `Polygon::new`.  The Rust function copies the (centroid-shifted) input
into a fixed `[Vector2; 8]`; for more than 8 vertices the slice expression
`vertices[0..v_count]` panics, modelled as `Except.error ()`.  A convexity
failure is the recoverable `None`. -/
def new (verts : List Vector2) : Except Unit (Option Polygon) :=
  let v_count := verts.length
  let a := areaOf verts
  let c := centroid verts
  let shift := ZERO - c
  let shifted := verts.map (fun v => v + shift)
  if 8 < v_count then Except.error ()
  else
    let poly : Polygon := { area := a, vertices := (shifted, v_count) }
    if poly.is_convex then Except.ok (some poly) else Except.ok none

end Polygon

/-- Rust `shapes.rs`. -/
inductive Shape where
  | circle (c : Circle)
  | aabb (r : AABB)
  | polygon (p : Polygon)
deriving DecidableEq, Inhabited

namespace Shape

/-- Rust `copy_as_circle` (`as_circle` in `shapes.rs`): the stored circle data;
the Rust non-circle case panics, modelled by a junk circle. -/
def copy_as_circle : Shape → Circle
  | circle c => c
  | _ => ⟨0, ZERO, 0⟩

/-- Rust `copy_as_aabb`: likewise for boxes. -/
def copy_as_aabb : Shape → AABB
  | aabb r => r
  | _ => AABB.new 0 0

def is_circle : Shape → Bool
  | circle _ => true
  | _ => false

def is_aabb : Shape → Bool
  | aabb _ => true
  | _ => false

def area : Shape → ℚ
  | circle c => c.area
  | aabb r => r.area
  | polygon p => p.area

/-- Rust `Shape::get_vertices`. -/
def get_vertices : Shape → List Vector2 × Nat
  | circle c => ([c.visual_point], 1)
  | aabb r => (r.corners, 4)
  | polygon p => ((p.vertices.1.take p.vertices.2), p.vertices.2)

end Shape

/-- Rust `body.rs`: `BodyType`. -/
inductive BodyType where
  | Static
  | Dynamic
deriving DecidableEq, Inhabited

/-- Rust `body.rs`: `Body`. -/
structure Body where
  name : Option String
  shape : Shape
  transform : Transform
  material : Material
  hitbox : Hitbox
  vertices : List Vector2
  vertice_count : Nat
  body_type : BodyType
  mass : ℚ
  inverse_mass : ℚ
  inertia : ℚ
  inverse_inertia : ℚ
deriving DecidableEq

namespace Body

/-- Rust `Default for Body`. -/
def default (F : FloatOps) : Body :=
  { name := none
    shape := Shape.circle (Circle.new F 1)
    transform := ⟨ZERO, ZERO, 0⟩
    material := Material.DEFAULT
    hitbox := ⟨ZERO, ZERO⟩
    vertices := List.replicate 8 ZERO
    vertice_count := 1
    body_type := BodyType.Dynamic
    mass := 0
    inverse_mass := 0
    inertia := 0
    inverse_inertia := 0 }

instance : Inhabited Body := ⟨default ⟨id, id, id, (0,0), 0⟩⟩

/-- Rust `calc_mass`. -/
def calc_mass (area density : ℚ) : ℚ × ℚ :=
  let mass := area * density
  (mass, 1 / mass)

/-- Rust `calc_inertia`. -/
def calc_inertia (shape : Shape) (mass density : ℚ) : ℚ × ℚ :=
  match shape with
  | Shape.circle c =>
    let inertia := (1/2) * mass * (c.r ^ (2:ℕ))
    (inertia, 1 / inertia)
  | Shape.polygon p =>
    let (verts, nr_of_verts) := p.vertices
    let inertia := (List.range nr_of_verts).foldl (fun acc idx =>
      let a := verts.getD idx ZERO
      let b := verts.getD ((idx + 1) % nr_of_verts) ZERO
      let mass_tri := density * (1/2) * |a.crossed b|
      acc + mass_tri * (a.len_squared + b.len_squared + a.dotted b) / 6) 0
    (inertia, 1 / inertia)
  | _ => (0, 0)

/-- Rust `Body::get_vertices`: copy of the first `vertice_count` slots. -/
def get_vertices (b : Body) : List Vector2 × Nat :=
  (b.vertices.take b.vertice_count, b.vertice_count)

/-- Rust `Body::get_moved_vertices`. -/
def get_moved_vertices (b : Body) : List Vector2 × Nat :=
  let location := b.transform.location
  let (vertices, nr_of_verts) := b.get_vertices
  (vertices.map (fun v => v + location), nr_of_verts)

/-- Sentinels `f32::MAX = (2 - 2^-23) * 2^127` and `f32::MIN`, exact. -/
def f32MAX : ℚ := 2 ^ (128:ℕ) - 2 ^ (104:ℕ)

def f32MIN : ℚ := -f32MAX

/-- Rust `Body::generate_hitbox`. -/
def generate_hitbox (b : Body) : Body :=
  if b.shape.is_circle then { b with hitbox := b.shape.copy_as_circle.get_hitbox }
  else if b.shape.is_aabb then { b with hitbox := b.shape.copy_as_aabb.get_hitbox }
  else
    let (vertices, len) := b.get_vertices
    let mm := (vertices.take len).foldl (fun (acc : Vector2 × Vector2) v =>
      (⟨min acc.1.x v.x, min acc.1.y v.y⟩, ⟨max acc.2.x v.x, max acc.2.y v.y⟩))
      (⟨f32MAX, f32MAX⟩, ⟨f32MIN, f32MIN⟩)
    { b with hitbox := Hitbox.new mm.1 mm.2 }

/-- Rust `Body::update_hitbox`. -/
def update_hitbox (b : Body) : Body :=
  if b.shape.is_circle || b.shape.is_aabb then b else b.generate_hitbox

/-- Rust `Body::rotate`: rotate the cached vertices by angular velocity x dt and
regenerate the hitbox. -/
def rotate (F : FloatOps) (b : Body) (dt : ℚ) : Body :=
  let angle := b.transform.angular_velocity
  let b' :=
    if ¬b.shape.is_aabb ∧ angle ≠ 0 then
      let (vertices, len) := b.get_vertices
      { b with vertices :=
          (vertices.take len).map (fun v => Vector2.rotated F v (angle * dt)) ++
          b.vertices.drop len }
    else b
  b'.update_hitbox

/-- Rust `Body::new`. -/
def new (F : FloatOps) (x y : ℚ) (shape : Shape) (body_type : BodyType)
    (material : Material) (name : Option String) : Body :=
  let md : ℚ × ℚ :=
    if body_type = BodyType.Dynamic then calc_mass shape.area material.density
    else (0, 0)
  let ii : ℚ × ℚ :=
    if body_type = BodyType.Dynamic then calc_inertia shape md.1 material.density
    else (0, 0)
  let (vertices, vertice_count) := shape.get_vertices
  let b : Body :=
    { name := name
      shape := shape
      transform := Transform.new x y
      material := material
      hitbox := ⟨ZERO, ZERO⟩
      vertices := vertices
      vertice_count := vertice_count
      body_type := body_type
      mass := md.1
      inverse_mass := md.2
      inertia := ii.1
      inverse_inertia := ii.2 }
  b.generate_hitbox

/-- Rust `Body::circle`. -/
def circle (F : FloatOps) (x y r : ℚ) (material : Material) : Body :=
  Body.new F x y (Shape.circle (Circle.new F r)) BodyType.Dynamic material none

/-- Rust `Body::aabb`. -/
def aabb (F : FloatOps) (x y width height : ℚ) (material : Material) : Body :=
  Body.new F x y (Shape.aabb (AABB.new width height)) BodyType.Dynamic material none

/-- Rust `Body::polygon`: propagates the `Polygon::new` panic (`Except.error`)
and its recoverable `None`. -/
def polygon (F : FloatOps) (x y : ℚ) (vertices : List Vector2)
    (material : Material) : Except Unit (Option Body) :=
  match Polygon.new vertices with
  | Except.error e => Except.error e
  | Except.ok none => Except.ok none
  | Except.ok (some poly) =>
    Except.ok (some (Body.new F x y (Shape.polygon poly) BodyType.Dynamic material none))

/-- Rust `Body::platform_rectangle_aabb`. -/
def platform_rectangle_aabb (F : FloatOps) (x y width height : ℚ)
    (material : Material) : Body :=
  Body.new F x y (Shape.aabb (AABB.new width height)) BodyType.Static material none

/-- Rust `Body::platform_circle`. -/
def platform_circle (F : FloatOps) (x y r : ℚ) (material : Material) : Body :=
  Body.new F x y (Shape.circle (Circle.new F r)) BodyType.Static material none

/-- Rust `Body::platform_polygon`. -/
def platform_polygon (F : FloatOps) (x y : ℚ) (vertices : List Vector2)
    (rotation : ℚ) (material : Material) : Except Unit (Option Body) :=
  match Polygon.new vertices with
  | Except.error e => Except.error e
  | Except.ok none => Except.ok none
  | Except.ok (some poly) =>
    let pp := Body.new F x y (Shape.polygon poly) BodyType.Static material none
    let pp := { pp with vertices := pp.vertices.map (fun v => Vector2.rotated F v rotation) }
    Except.ok (some pp.generate_hitbox)

end Body

/-- Rust `attractor.rs`: `AttractorType`. -/
inductive AttractorType where
  | Global
  | Local
deriving DecidableEq, Inhabited

/-- Rust `attractor.rs`: `Attractor`. -/
structure Attractor where
  location : Vector2
  mass : ℚ
  r : ℚ
  d_min : ℚ
  d_max : ℚ
  name : Option String
  a_type : AttractorType
deriving DecidableEq, Inhabited

namespace Attractor

/-- Gravitational constant `G` of `attractor.rs`. -/
def G : ℚ := 1

/-- Rust `f32::clamp` on exact rationals (the source guarantees
`d_min <= d_max` wherever it is called with sensible parameters). -/
def clampQ (x lo hi : ℚ) : ℚ := if x < lo then lo else if hi < x then hi else x

/-- Rust `Attractor::new`. -/
def new (x y r : ℚ) (a_type : AttractorType) (name : Option String) : Attractor :=
  { location := ⟨x, y⟩
    mass := 1000
    r := r
    d_min := 10
    d_max := 20
    name := name
    a_type := a_type }

/-- Rust `Attractor::get_attraction`. -/
def get_attraction (F : FloatOps) (a : Attractor) (body : Body) : Vector2 :=
  let dir := a.location - body.transform.location
  let d2 := dir.len_squared
  if a.a_type = AttractorType.Local ∧ a.r * a.r < d2 then ZERO
  else
    let n := dir.normalize_or_zero F
    let strength := (G * a.mass * body.mass) / clampQ d2 a.d_min a.d_max
    n * |strength|

end Attractor

/-- Rust `environment/force.rs`. -/
structure Force where
  acceleration : Vector2
deriving DecidableEq, Inhabited

/-- Rust `collision/manifold.rs`: `Contact`. -/
structure Contact where
  location : Vector2
  diff_to_a : Vector2
  diff_to_b : Vector2
  normal_magnitude : ℚ
  tangent_magnitude : ℚ
deriving DecidableEq, Inhabited

namespace Contact

def default : Contact := ⟨ZERO, ZERO, ZERO, 0, 0⟩

end Contact

/-- Rust `collision/manifold.rs`: `Manifold`.  `contacts` models the Rust
`[Contact; 2]` as a two-element list. -/
structure Manifold where
  a_idx : Nat
  b_idx : Nat
  normal : Vector2
  tangent : Vector2
  depth : ℚ
  contact_count : Nat
  inv_contact_count : ℚ
  bounce_factor : ℚ
  friction : ℚ
  contacts : List Contact
deriving DecidableEq, Inhabited

namespace Manifold

/-- Rust `Manifold::new`. -/
def new (a : Body) (a_idx : Nat) (b : Body) (b_idx : Nat) : Manifold :=
  let restitution := (a.material.restitution + b.material.restitution) * (1/2)
  let bounce_factor := -(1 + restitution)
  let friction := (a.material.friction + b.material.friction) * (1/2)
  { a_idx := a_idx
    b_idx := b_idx
    normal := ZERO
    tangent := ZERO
    depth := 0
    contact_count := 0
    inv_contact_count := 0
    bounce_factor := bounce_factor
    friction := friction
    contacts := [Contact.default, Contact.default] }

/-- Rust `BOUNCE_THRESHHOLD` of `manifold.rs`. -/
def BOUNCE_THRESHHOLD : ℚ := 1 / 10000

/-- One iteration of the `Manifold::setup` contact loop: returns the updated
contact and the new bounce factor. -/
def setupContact (m : Manifold) (a b : Body) (scaled_world_force : Vector2)
    (tangent : Vector2) (bounce : ℚ) (c : Contact) : Contact × ℚ :=
  let ac := c.location - a.transform.location
  let bc := c.location - b.transform.location
  let a_normal := dot ac m.normal
  let b_normal := dot bc m.normal
  let factor_n := a.inverse_mass + b.inverse_mass
    + (dot ac ac - a_normal * a_normal) * a.inverse_inertia
    + (dot bc bc - b_normal * b_normal) * b.inverse_inertia
  let a_tangent := dot ac tangent
  let b_tangent := dot bc tangent
  let factor_t := a.inverse_mass + b.inverse_mass
    + (dot ac ac - a_tangent * a_tangent) * a.inverse_inertia
    + (dot bc bc - b_tangent * b_tangent) * b.inverse_inertia
  let v_rel := (b.transform.velocity + cross b.transform.angular_velocity bc)
    - (a.transform.velocity + cross a.transform.angular_velocity ac)
  let bounce' :=
    if v_rel.len_squared < scaled_world_force.len_squared + BOUNCE_THRESHHOLD
    then -1 else bounce
  (⟨c.location, ac, bc, 1 / factor_n, 1 / factor_t⟩, bounce')

/-- Rust `Manifold::setup`: the `iter_mut().take(contact_count)` loop over the
contacts, threading the conditional bounce-factor overwrite. -/
def setup (m : Manifold) (a b : Body) (scaled_world_force : Vector2) : Manifold :=
  let tangent := m.normal.tangent
  let inv_contact_count : ℚ := 1 / (m.contact_count : ℚ)
  let folded := (m.contacts.take m.contact_count).foldl
    (fun (acc : List Contact × ℚ) c =>
      let r := setupContact m a b scaled_world_force tangent acc.2 c
      (acc.1 ++ [r.1], r.2))
    ([], m.bounce_factor)
  { m with
    tangent := tangent
    inv_contact_count := inv_contact_count
    contacts := folded.1 ++ m.contacts.drop m.contact_count
    bounce_factor := folded.2 }

end Manifold

-- --------------------------------- DETECTION ---------------------------------

/-- Rust `detection.rs`: `THRESHHOLD`. -/
def THRESHHOLD : ℚ := 1 / 10000

/-- Rust `detection.rs`: `similar`. -/
def similar (f1 f2 : ℚ) : Bool := |f1 - f2| ≤ THRESHHOLD

/-- Rust `detection.rs`: `similar_vector2`. -/
def similar_vector2 (v1 v2 : Vector2) : Bool := similar v1.x v2.x && similar v1.y v2.y

/-- Rust `detection.rs`: `hitboxes_collide` (broad-phase overlap test). -/
def hitboxes_collide (a b : Body) : Bool :=
  let hitbox_a := a.hitbox + a.transform.location
  let hitbox_b := b.hitbox + b.transform.location
  if hitbox_b.max.x ≤ hitbox_a.min.x ∨ hitbox_a.max.x ≤ hitbox_b.min.x then false
  else if hitbox_b.max.y ≤ hitbox_a.min.y ∨ hitbox_a.max.y ≤ hitbox_b.min.y then false
  else true

/-- Rust `detection.rs`: `project_onto_line`. -/
def project_onto_line (a b p : Vector2) : Vector2 :=
  let line := b - a
  let ap := p - a
  let projection_factor := dot line ap / dot line line
  if 1 ≤ projection_factor then b
  else if projection_factor ≤ 0 then a
  else a + line * projection_factor

/-- Rust `detection.rs`: `contacts_single` - closest point on the polygon
boundary to `p` (junk `ZERO` when the body has no vertices; constructed
bodies always have at least one). -/
def contacts_single (p : Vector2) (body : Body) : Vector2 :=
  let (vertices, len) := body.get_moved_vertices
  ((List.range len).foldl (fun (acc : ℚ × Vector2) idx =>
    let v1 := vertices.getD idx ZERO
    let v2 := vertices.getD ((idx + 1) % len) ZERO
    let contact_candidate := project_onto_line v1 v2 p
    let d2 := Vector2.distance_squared p contact_candidate
    if d2 < acc.1 then (d2, contact_candidate) else acc)
    (Body.f32MAX, ZERO)).2

/-- One candidate step of `contacts_double`: state is
(min squared distance, contact 1, contact 2). -/
def contactsStep (acc : ℚ × Option Vector2 × Option Vector2)
    (contact_candidate : Vector2) (d2 : ℚ) :
    ℚ × Option Vector2 × Option Vector2 :=
  let (min_d2, contact_1, contact_2) := acc
  if similar d2 min_d2 then
    match contact_1 with
    | some c1 =>
      if ¬similar_vector2 c1 contact_candidate then
        (min_d2, contact_1, some contact_candidate)
      else (min_d2, contact_1, contact_2)
    | none => (min_d2, contact_1, contact_2)
  else if d2 < min_d2 then (d2, some contact_candidate, contact_2)
  else acc

/-- Rust `detection.rs`: `contacts_double` - deepest vertex-to-edge contact pair
between the two bodies (`contact_1` falls back to `ZERO` where the Rust
`expect` would fire on vertex-free bodies). -/
def contacts_double (a b : Body) : Vector2 × Option Vector2 :=
  let (vertices_a, len_a) := a.get_moved_vertices
  let (vertices_b, len_b) := b.get_moved_vertices
  let afterA := (vertices_a.take len_a).foldl (fun acc va =>
    (List.range len_b).foldl (fun acc2 idx_b =>
      let vb_1 := vertices_b.getD idx_b ZERO
      let vb_2 := vertices_b.getD ((idx_b + 1) % len_b) ZERO
      let cand := project_onto_line vb_1 vb_2 va
      contactsStep acc2 cand (Vector2.distance_squared va cand)) acc)
    (Body.f32MAX, none, none)
  let afterB := (vertices_b.take len_b).foldl (fun acc vb =>
    (List.range len_a).foldl (fun acc2 idx_a =>
      let va_1 := vertices_a.getD idx_a ZERO
      let va_2 := vertices_a.getD ((idx_a + 1) % len_a) ZERO
      let cand := project_onto_line va_1 va_2 vb
      contactsStep acc2 cand (Vector2.distance_squared vb cand)) acc)
    afterA
  ((afterB.2.1).getD ZERO, afterB.2.2)

/-- Rust `detection.rs`: `is_outside_polygon` (ray casting parity). -/
def is_outside_polygon (p : Vector2) (polygon : Body) : Bool :=
  let (verts, len) := polygon.get_moved_vertices
  let count := (List.range len).foldl (fun count idx =>
    let a := verts.getD idx ZERO
    let b := verts.getD ((idx + 1) % len) ZERO
    let y_in_between := (decide (p.y < a.y)) != (decide (p.y < b.y))
    let x_on_left_side := p.x < a.x + (p.y - a.y) / (b.y - a.y) * (b.x - a.x)
    if y_in_between && x_on_left_side then count + 1 else count) 0
  count % 2 == 0

/-- Rust `detection.rs`: `circle_circle`. -/
def circle_circle (F : FloatOps) (a : Body) (a_idx : Nat) (b : Body)
    (b_idx : Nat) : Option Manifold :=
  let ra := a.shape.copy_as_circle.r
  let rb := b.shape.copy_as_circle.r
  let direction := b.transform.location - a.transform.location
  let r := ra + rb
  if r * r ≤ direction.len_squared then none
  else
    let m := Manifold.new a a_idx b b_idx
    let normal := direction.normalize_or_random F
    let contact := a.transform.location + normal * ra
    some { m with
      normal := normal
      depth := r - direction.len F
      contacts := [⟨contact, ZERO, ZERO, 0, 0⟩, Contact.default]
      contact_count := 1 }

/-- Rust `detection.rs`: `circle_aabb`. -/
def circle_aabb (F : FloatOps) (circle : Body) (circle_idx : Nat) (aabb : Body)
    (aabb_idx : Nat) : Option Manifold :=
  let r := circle.shape.copy_as_circle.r
  let aabb_max := aabb.hitbox.max + aabb.transform.location
  let aabb_min := aabb.hitbox.min + aabb.transform.location
  let clamped_circle_location := circle.transform.location.clamp aabb_min aabb_max
  let difference_to_clamped := clamped_circle_location - circle.transform.location
  let location_to_clamped_squared := difference_to_clamped.len_squared
  if r * r ≤ location_to_clamped_squared then none
  else
    let m0 := { Manifold.new circle circle_idx aabb aabb_idx with contact_count := 1 }
    if location_to_clamped_squared ≠ 0 then
      let distance := F.sq location_to_clamped_squared
      let normal := (difference_to_clamped.normalize F).getD ZERO
      let depth := r - distance
      let contact := circle.transform.location + normal * distance
      some { m0 with
        depth := depth
        normal := normal
        contacts := [⟨contact, ZERO, ZERO, 0, 0⟩, Contact.default] }
    else
      let distance := circle.transform.location - aabb.transform.location
      let abs_distance := distance.abs
      let x_overlap := aabb.hitbox.max.x - abs_distance.x
      let y_overlap := aabb.hitbox.max.y - abs_distance.y
      if x_overlap < y_overlap then
        let depth := r + x_overlap
        let normal := if 0 < distance.x then NORMAL_LEFT else NORMAL_RIGHT
        let contact := circle.transform.location + normal * x_overlap
        some { m0 with
          depth := depth
          normal := normal
          contacts := [⟨contact, ZERO, ZERO, 0, 0⟩, Contact.default] }
      else
        let depth := r + y_overlap
        let normal := if 0 < distance.y then NORMAL_DOWN else NORMAL_UP
        let contact := circle.transform.location + normal * y_overlap
        some { m0 with
          depth := depth
          normal := normal
          contacts := [⟨contact, ZERO, ZERO, 0, 0⟩, Contact.default] }

/-- Rust `detection.rs`: `circle_polygon`. -/
def circle_polygon (F : FloatOps) (circle : Body) (circle_idx : Nat)
    (polygon : Body) (polygon_idx : Nat) : Option Manifold :=
  let r := circle.shape.copy_as_circle.r
  let contact_candidate := contacts_single circle.transform.location polygon
  let direction := contact_candidate - circle.transform.location
  let distance_squared := direction.len_squared
  let m0 := { Manifold.new circle circle_idx polygon polygon_idx with
    contact_count := 1
    contacts := [⟨contact_candidate, ZERO, ZERO, 0, 0⟩, Contact.default] }
  let fallback :=
    (polygon.transform.location - circle.transform.location).normalize_or_random F
  if is_outside_polygon circle.transform.location polygon then
    if r * r < distance_squared then none
    else
      some { m0 with
        normal := (direction.normalize F).getD fallback
        depth := r - F.sq distance_squared }
  else
    some { m0 with
      normal := ((direction.normalize F).getD fallback) * (-1 : ℚ)
      depth := r + F.sq distance_squared }

/-- Rust `detection.rs`: `aabb_aabb`. -/
def aabb_aabb (a : Body) (a_idx : Nat) (b : Body) (b_idx : Nat) : Option Manifold :=
  let m := Manifold.new a a_idx b b_idx
  let direction := b.transform.location - a.transform.location
  let aabb_1 := a.shape.copy_as_aabb
  let aabb_2 := b.shape.copy_as_aabb
  let x_overlap := aabb_1.max.x + aabb_2.max.x - |direction.x|
  let y_overlap := aabb_1.max.y + aabb_2.max.y - |direction.y|
  let nd : Vector2 × ℚ :=
    if y_overlap < x_overlap then
      (if 0 < direction.y then NORMAL_UP else NORMAL_DOWN, y_overlap)
    else
      (if 0 < direction.x then NORMAL_RIGHT else NORMAL_LEFT, x_overlap)
  let cc := contacts_double a b
  let base := { m with
    contact_count := 1
    depth := nd.2
    normal := nd.1
    contacts := [⟨cc.1, ZERO, ZERO, 0, 0⟩, Contact.default] }
  some (match cc.2 with
    | some p => { base with
        contact_count := 2
        contacts := [⟨cc.1, ZERO, ZERO, 0, 0⟩, ⟨p, ZERO, ZERO, 0, 0⟩] }
    | none => base)

/-- Rust `detection.rs`: `sat_projection` - min/max of the vertex projections
onto `axis`, with the Rust `f32::MAX`/`f32::MIN` fold sentinels. -/
def sat_projection (body : Body) (axis : Vector2) : ℚ × ℚ :=
  let (vertices, len) := body.get_moved_vertices
  (vertices.take len).foldl (fun acc vertice =>
    let projected := dot vertice axis
    (if projected < acc.1 then projected else acc.1,
     if acc.2 < projected then projected else acc.2))
    (Body.f32MAX, Body.f32MIN)

/-- The SAT axes tested by `polygon_polygon` for one body: the normalized
tangents of its edges, in edge order.  The Rust `expect` on a degenerate
(zero-length) edge is modelled by the junk axis `ZERO`. -/
def polyAxes (F : FloatOps) (body : Body) : List Vector2 :=
  let (vertices, len) := body.get_moved_vertices
  (List.range len).map (fun idx =>
    let edge := vertices.getD ((idx + 1) % len) ZERO - vertices.getD idx ZERO
    (edge.tangent.normalize F).getD ZERO)

/-- The projection overlap of the two bodies on one axis. -/
def satOverlap (a b : Body) (axis : Vector2) : ℚ :=
  let pa := sat_projection a axis
  let pb := sat_projection b axis
  min (pb.2 - pa.1) (pa.2 - pb.1)

/-- Separation test of one axis (touching intervals count as separated). -/
def satSeparated (a b : Body) (axis : Vector2) : Bool :=
  let pa := sat_projection a axis
  let pb := sat_projection b axis
  decide (pb.2 ≤ pa.1 ∨ pa.2 ≤ pb.1)

/-- The SAT loop of `polygon_polygon` over the axis list: early `none` on a
separated axis, otherwise the running (minimal depth, axis) pair. -/
def satScan (a b : Body) : List Vector2 → ℚ × Vector2 → Option (ℚ × Vector2)
  | [], acc => some acc
  | axis :: rest, acc =>
    if satSeparated a b axis then none
    else
      let d := satOverlap a b axis
      if d < acc.1 then satScan a b rest (d, axis) else satScan a b rest acc

/-- Rust `detection.rs`: `polygon_polygon` (general convex SAT), scanning the
axes of `a` then the axes of `b` starting from depth `f32::MAX`. -/
def polygon_polygon (F : FloatOps) (a : Body) (a_idx : Nat) (b : Body)
    (b_idx : Nat) : Option Manifold :=
  match satScan a b (polyAxes F a ++ polyAxes F b) (Body.f32MAX, ZERO) with
  | none => none
  | some dn =>
    let m := Manifold.new a a_idx b b_idx
    let direction := b.transform.location - a.transform.location
    let cc := contacts_double a b
    let normal := if direction.dotted dn.2 < 0 then dn.2 * (-1 : ℚ) else dn.2
    let base := { m with
      contact_count := 1
      depth := dn.1
      normal := normal
      contacts := [⟨cc.1, ZERO, ZERO, 0, 0⟩, Contact.default] }
    some (match cc.2 with
      | some p => { base with
          contact_count := 2
          contacts := [⟨cc.1, ZERO, ZERO, 0, 0⟩, ⟨p, ZERO, ZERO, 0, 0⟩] }
      | none => base)

/-- Rust `detection.rs`: `aabb_polygon` delegates to the general polygon case. -/
def aabb_polygon (F : FloatOps) (aabb : Body) (aabb_idx : Nat) (polygon : Body)
    (polygon_idx : Nat) : Option Manifold :=
  polygon_polygon F aabb aabb_idx polygon polygon_idx

/-- Rust `detection.rs`: `detect_collision` - dispatch on the shape pair. -/
def detect_collision (F : FloatOps) (a : Body) (a_idx : Nat) (b : Body)
    (b_idx : Nat) : Option Manifold :=
  match a.shape with
  | Shape.circle _ =>
    match b.shape with
    | Shape.circle _ => circle_circle F a a_idx b b_idx
    | Shape.aabb _ => circle_aabb F a a_idx b b_idx
    | Shape.polygon _ => circle_polygon F a a_idx b b_idx
  | Shape.aabb _ =>
    match b.shape with
    | Shape.circle _ => circle_aabb F b b_idx a a_idx
    | Shape.aabb _ => aabb_aabb a a_idx b b_idx
    | Shape.polygon _ => aabb_polygon F a a_idx b b_idx
  | Shape.polygon _ =>
    match b.shape with
    | Shape.circle _ => circle_polygon F b b_idx a a_idx
    | Shape.aabb _ => aabb_polygon F b b_idx a a_idx
    | Shape.polygon _ => polygon_polygon F a a_idx b b_idx

-- --------------------------------- RESOLUTION ---------------------------------

/-- Rust `resolution.rs`: `apply_impulses` - returns the updated pair `(a, b)`. -/
def apply_impulses (a b : Body) (impulse ac bc : Vector2) : Body × Body :=
  ({ a with transform := { a.transform with
      velocity := a.transform.velocity - impulse * a.inverse_mass
      angular_velocity := a.transform.angular_velocity - ac.crossed impulse * a.inverse_inertia } },
   { b with transform := { b.transform with
      velocity := b.transform.velocity + impulse * b.inverse_mass
      angular_velocity := b.transform.angular_velocity + bc.crossed impulse * b.inverse_inertia } })

/-- One contact iteration of `resolution.rs`'s `resolve`. -/
def resolveContact (m : Manifold) (ab : Body × Body) (c : Contact) : Body × Body :=
  let (a, b) := ab
  let v_rel := (b.transform.velocity + cross b.transform.angular_velocity c.diff_to_b)
    - (a.transform.velocity + cross a.transform.angular_velocity c.diff_to_a)
  let v_rel_n := v_rel.dotted m.normal
  let jn := max (c.normal_magnitude * v_rel_n * m.bounce_factor * m.inv_contact_count) 0
  let ab1 := apply_impulses a b (jn * m.normal) c.diff_to_a c.diff_to_b
  let (a1, b1) := ab1
  let v_rel2 := (b1.transform.velocity + cross b1.transform.angular_velocity c.diff_to_b)
    - (a1.transform.velocity + cross a1.transform.angular_velocity c.diff_to_a)
  let v_rel_t := v_rel2.dotted m.tangent
  let max_friction := jn * m.friction
  let jt := max (-max_friction) (min (c.tangent_magnitude * (-v_rel_t) * m.inv_contact_count) max_friction)
  apply_impulses a1 b1 (jt * m.tangent) c.diff_to_a c.diff_to_b

/-- Rust `resolution.rs`: `resolve` - fold over the active contacts. -/
def resolve (m : Manifold) (a b : Body) : Body × Body :=
  (m.contacts.take m.contact_count).foldl (resolveContact m) (a, b)

/-- Rust `resolution.rs`: `resolve_collision` - look the two bodies up by index,
resolve, and write them back. -/
def resolve_collision (m : Manifold) (bodies : List Body) : List Body :=
  let a := bodies.getD m.a_idx default
  let b := bodies.getD m.b_idx default
  let ab := resolve m a b
  (bodies.set m.a_idx ab.1).set m.b_idx ab.2

/-- Rust `resolution.rs`: `CORRECTION_FACTOR` and `ALLOWED_INTERSECTION`. -/
def CORRECTION_FACTOR : ℚ := 6 / 10

def ALLOWED_INTERSECTION : ℚ := 5 / 1000

/-- Rust `resolution.rs`: `correct_position`. -/
def correct_position (m : Manifold) (bodies : List Body) : List Body :=
  let a := bodies.getD m.a_idx default
  let b := bodies.getD m.b_idx default
  let correction :=
    (max (m.depth - ALLOWED_INTERSECTION) 0 / (a.inverse_mass + b.inverse_mass)
      * CORRECTION_FACTOR) * m.normal
  let a' := { a with transform := { a.transform with
    location := a.transform.location - correction * a.inverse_mass } }
  let b' := { b with transform := { b.transform with
    location := b.transform.location + correction * b.inverse_mass } }
  (bodies.set m.a_idx a').set m.b_idx b'

-- --------------------------------- WORLD ---------------------------------

/-- Rust `environment/world.rs`: `World`.  The manifold `HashMap` is modelled as a
list in insertion order; `last_step_duration` (a wall-clock diagnostic) is
omitted. -/
structure World where
  bodies : List Body
  forces : Vector2
  attractors : List Attractor
  manifolds : List Manifold
  possible_collisions : List (Nat × Nat)
  collision_points : List Vector2
  tick_rate : ℚ
  delta_time : ℚ
  collision_precision : Nat
  pixel_to_meter : ℚ
  inv_pixel_to_meter : ℚ
deriving DecidableEq, Inhabited

namespace World

/-- Rust `World::new`. -/
def new (tick_rate pixel_to_meter : ℚ) : World :=
  { bodies := []
    forces := ZERO
    attractors := []
    manifolds := []
    possible_collisions := []
    collision_points := []
    tick_rate := tick_rate
    delta_time := 1 / tick_rate
    collision_precision := 1
    pixel_to_meter := pixel_to_meter
    inv_pixel_to_meter := 1 / pixel_to_meter }

/-- Rust `World::add_body`. -/
def add_body (w : World) (body : Body) : World :=
  { w with bodies := w.bodies ++ [body] }

/-- Rust `World::add_force`. -/
def add_force (w : World) (force : Force) : World :=
  { w with forces := w.forces + force.acceleration }

/-- Rust `World::add_attractor`. -/
def add_attractor (w : World) (attractor : Attractor) : World :=
  { w with attractors := w.attractors ++ [attractor] }

/-- Rust `usize::clamp` as used by `set_collision_precision`. -/
def clampNat (x lo hi : Nat) : Nat := if x < lo then lo else if hi < x then hi else x

/-- Rust `World::set_collision_precision`: clamps the argument into `[10, 100]`. -/
def set_collision_precision (w : World) (precision : Nat) : World :=
  { w with collision_precision := clampNat precision 10 100 }

/-- Rust `World::set_ptm_ratio` (the name is shortened here). -/
def set_ptm (w : World) (pixel_to_meter : ℚ) : World :=
  { w with
    pixel_to_meter := pixel_to_meter
    inv_pixel_to_meter := 1 / pixel_to_meter }

/-- Rust `World::change_ptm_ratio` (the name is shortened here). -/
def change_ptm (w : World) (change : ℚ) : World :=
  let p := Attractor.clampQ (w.pixel_to_meter * change) 1 1000
  { w with
    pixel_to_meter := p
    inv_pixel_to_meter := 1 / p }

/-- Rust `World::screen_to_world`. -/
def screen_to_world (w : World) (x y wd h : ℚ) : Vector2 :=
  ⟨(x - wd * (1/2)) * w.inv_pixel_to_meter,
   -((y - h * (1/2)) * w.inv_pixel_to_meter)⟩

/-- Rust `World::world_to_screen`. -/
def world_to_screen (w : World) (coordinate : Vector2) (wd h : ℚ) : ℚ × ℚ :=
  (coordinate.x * w.pixel_to_meter + wd * (1/2),
   -coordinate.y * w.pixel_to_meter + h * (1/2))

/-- The candidate index pairs scanned by the `broad_phase` nested loops:
`(i, j)` with `i < j < n`, in the loop order. -/
def pairList (n : Nat) : List (Nat × Nat) :=
  (List.range n).flatMap (fun i =>
    (List.range' (i + 1) (n - (i + 1))).map (fun j => (i, j)))

/-- Rust `World::broad_phase`: clear the observed contact points and push every
non-static-static candidate pair whose hitboxes collide. -/
def broad_phase (w : World) : World :=
  { w with
    collision_points := []
    possible_collisions := (pairList w.bodies.length).foldl
      (fun acc ij =>
        let a := w.bodies.getD ij.1 default
        let b := w.bodies.getD ij.2 default
        if a.body_type = BodyType.Static ∧ b.body_type = BodyType.Static then acc
        else if hitboxes_collide a b then acc ++ [ij] else acc)
      w.possible_collisions }

/-- Rust `World::narrow_phase`: take the candidate list, detect, record contact
points and insert the manifolds keyed in candidate order. -/
def narrow_phase (F : FloatOps) (w : World) : World :=
  let pc := w.possible_collisions
  let w0 := { w with possible_collisions := [] }
  pc.foldl (fun wacc coll =>
    let a := wacc.bodies.getD coll.1 default
    let b := wacc.bodies.getD coll.2 default
    match detect_collision F a coll.1 b coll.2 with
    | some manifold =>
      { wacc with
        collision_points := wacc.collision_points ++
          ((manifold.contacts.take manifold.contact_count).map Contact.location)
        manifolds := wacc.manifolds ++ [manifold] }
    | none => wacc) w0

/-- Rust `World::setup_resolutions`. -/
def setup_resolutions (w : World) : World :=
  { w with manifolds := w.manifolds.map (fun m =>
      m.setup (w.bodies.getD m.a_idx default) (w.bodies.getD m.b_idx default)
        (w.forces * w.delta_time)) }

/-- Rust `World::resolve_collisions`. -/
def resolve_collisions (w : World) : World :=
  { w with bodies := w.manifolds.foldl (fun bs m => resolve_collision m bs) w.bodies }

/-- Rust `World::correct_positions`. -/
def correct_positions (w : World) : World :=
  { w with bodies := w.manifolds.foldl (fun bs m => correct_position m bs) w.bodies }

/-- The force accumulated on one body in `update`'s force loop:
`forces` plus every attractor's pull. -/
def bodyForce (F : FloatOps) (w : World) (body : Body) : Vector2 :=
  w.attractors.foldl (fun f a => f + a.get_attraction F body) w.forces

/-- Rust `World::update`: one full fixed-step tick, transcribed from the source:
broad phase, narrow phase, the force loop over Dynamic bodies, the guarded
resolution block (setup, `collision_precision` x resolve, positional
correction, manifold clear), and the integration loop over Dynamic bodies. -/
def update (F : FloatOps) (w : World) : World :=
  let w1 := w.broad_phase
  let w2 := narrow_phase F w1
  let w3 := { w2 with bodies := w2.bodies.map (fun (body : Body) =>
    if body.body_type = BodyType.Dynamic then
      { body with transform := { body.transform with
          velocity := body.transform.velocity + bodyForce F w2 body * w2.delta_time } }
    else body) }
  let w4 :=
    if w3.manifolds.isEmpty then w3
    else
      let wa := w3.setup_resolutions
      let wb := resolve_collisions^[wa.collision_precision] wa
      let wc := wb.correct_positions
      { wc with manifolds := [] }
  { w4 with bodies := w4.bodies.map (fun (body : Body) =>
    if body.body_type = BodyType.Dynamic then
      Body.rotate F { body with transform := { body.transform with
        location := body.transform.location +
          body.transform.velocity * w4.delta_time } } w4.delta_time
    else body) }

end World

-- ------------------------- SPEC-SIDE DEFINITIONS -------------------------
-- Definitions in this block are written from the specification's wording,
-- to be compared against the source transcriptions above.

/-- Spec 4.5 phase 3: "apply constant forces + all attractors' pairwise pull
to every Dynamic body's velocity (Static bodies are skipped entirely)". -/
def forcesPhase (F : FloatOps) (w : World) : World :=
  { w with bodies := w.bodies.map (fun (body : Body) =>
    if body.body_type = BodyType.Dynamic then
      { body with transform := { body.transform with
          velocity := body.transform.velocity + World.bodyForce F w body * w.delta_time } }
    else body) }

/-- Spec 4.5 phase 4: "if any manifold exists: run manifold setup once, then
the velocity-resolution pass `collision_precision` times, then the
positional-correction pass once"; manifolds are discarded afterwards. -/
def resolutionPhase (w : World) : World :=
  if w.manifolds.isEmpty then w
  else
    let wa := w.setup_resolutions
    let wb := World.resolve_collisions^[wa.collision_precision] wa
    { wb.correct_positions with manifolds := [] }

/-- Spec 4.5 phase 5: "for every Dynamic body, location += velocity x dt,
then re-derive rotated vertex cache and hitbox". -/
def integratePhase (F : FloatOps) (w : World) : World :=
  { w with bodies := w.bodies.map (fun (body : Body) =>
    if body.body_type = BodyType.Dynamic then
      Body.rotate F { body with transform := { body.transform with
        location := body.transform.location +
          body.transform.velocity * w.delta_time } } w.delta_time
    else body) }

/-- Spec-side broad-phase exclusion: both bodies Static. -/
def bothStatic (a b : Body) : Prop :=
  a.body_type = BodyType.Static ∧ b.body_type = BodyType.Static

/-- Spec-side overlap of the world-space hitboxes, strict on both axes
(touching edges do not count). -/
def strictOverlap (a b : Body) : Prop :=
  let ha := a.hitbox + a.transform.location
  let hb := b.hitbox + b.transform.location
  ha.min.x < hb.max.x ∧ hb.min.x < ha.max.x ∧
  ha.min.y < hb.max.y ∧ hb.min.y < ha.max.y

instance (a b : Body) : Decidable (bothStatic a b) := by
  unfold bothStatic; infer_instance

instance (a b : Body) : Decidable (strictOverlap a b) := by
  unfold strictOverlap; infer_instance

/-- Spec-side condition of the manifold-setup restitution overwrite, for one
contact: the squared relative contact velocity is below the squared per-tick
force-induced velocity plus the threshold. -/
def bounceCondition (a b : Body) (scaled_world_force : Vector2) (c : Contact) : Prop :=
  ((b.transform.velocity + cross b.transform.angular_velocity (c.location - b.transform.location))
    - (a.transform.velocity + cross a.transform.angular_velocity (c.location - a.transform.location))).len_squared
  < scaled_world_force.len_squared + Manifold.BOUNCE_THRESHHOLD

instance (a b : Body) (f : Vector2) (c : Contact) : Decidable (bounceCondition a b f c) := by
  unfold bounceCondition; infer_instance

-- ------------------------- CONCRETE INSTANTIATIONS -------------------------

/-- Exact square root on rationals whose numerator and denominator are
perfect squares; used to instantiate the `sq` oracle in witnesses. -/
def ratSqrt (q : ℚ) : ℚ := (Nat.sqrt q.num.toNat : ℚ) / (Nat.sqrt q.den : ℚ)

/-- A concrete `FloatOps` for witnesses: exact square roots on perfect
squares, trig pinned at angle zero, a fixed unit vector for the random
oracle, and a rational stand-in for `PI`. -/
def testOps : FloatOps :=
  { sq := ratSqrt
    cosq := fun _ => 1
    sinq := fun _ => 0
    rnd := (1, 0)
    pi := 22 / 7 }

/-- Witness body: a unit square polygon body centered at `(cx, cy)`. -/
def sqBody (cx cy : ℚ) : Body :=
  { name := none
    shape := Shape.polygon ⟨4, ([⟨-1, 1⟩, ⟨1, 1⟩, ⟨1, -1⟩, ⟨-1, -1⟩], 4)⟩
    transform := ⟨⟨cx, cy⟩, ZERO, 0⟩
    material := Material.DEFAULT
    hitbox := ⟨⟨-1, -1⟩, ⟨1, 1⟩⟩
    vertices := [⟨-1, 1⟩, ⟨1, 1⟩, ⟨1, -1⟩, ⟨-1, -1⟩]
    vertice_count := 4
    body_type := BodyType.Dynamic
    mass := 1
    inverse_mass := 1
    inertia := 1
    inverse_inertia := 1 }

/-- Witness body: a unit circle body at the origin with horizontal velocity
`v`, used by the manifold-setup counterexample. -/
def velBody (v : ℚ) : Body :=
  { name := none
    shape := Shape.circle (Circle.new testOps 1)
    transform := ⟨ZERO, ⟨v, 0⟩, 0⟩
    material := Material.DEFAULT
    hitbox := ⟨⟨-1, -1⟩, ⟨1, 1⟩⟩
    vertices := [⟨0, 1⟩]
    vertice_count := 1
    body_type := BodyType.Dynamic
    mass := 1
    inverse_mass := 1
    inertia := 1/2
    inverse_inertia := 2 }

/-- Counterexample attractor: the default clamp range `[10, 20]`. -/
def cexAttractor : Attractor :=
  { location := ZERO
    mass := 1000
    r := 0
    d_min := 10
    d_max := 20
    name := none
    a_type := AttractorType.Global }

/-- Counterexample body for the attractor: unit mass at `(5, 12)`
(squared distance 169 from the attractor). -/
def cexAttracted : Body :=
  { velBody 0 with transform := ⟨⟨5, 12⟩, ZERO, 0⟩ }

/-- Witness body: a circle body of radius 3 centered at `(cx, cy)`. -/
def circBody (cx cy : ℚ) : Body :=
  { velBody 0 with
    shape := Shape.circle (Circle.new testOps 3)
    transform := ⟨⟨cx, cy⟩, ZERO, 0⟩
    hitbox := ⟨⟨-3, -3⟩, ⟨3, 3⟩⟩ }

-- =============================== THEOREMS ===============================

namespace Vector2

@[simp] theorem add_x (a b : Vector2) : (a + b).x = a.x + b.x := rfl
@[simp] theorem add_y (a b : Vector2) : (a + b).y = a.y + b.y := rfl
@[simp] theorem sub_x (a b : Vector2) : (a - b).x = a.x - b.x := rfl
@[simp] theorem sub_y (a b : Vector2) : (a - b).y = a.y - b.y := rfl
@[simp] theorem smul_x (a : Vector2) (q : ℚ) : (a * q).x = a.x * q := rfl
@[simp] theorem smul_y (a : Vector2) (q : ℚ) : (a * q).y = a.y * q := rfl
@[simp] theorem smul_x' (a : Vector2) (q : ℚ) : (q * a).x = q * a.x := rfl
@[simp] theorem smul_y' (a : Vector2) (q : ℚ) : (q * a).y = q * a.y := rfl

theorem ext' (a b : Vector2) (hx : a.x = b.x) (hy : a.y = b.y) : a = b := by
  cases a; cases b; simp_all

@[simp] theorem smul_zero (a : Vector2) : a * (0:ℚ) = ZERO := by
  apply ext' <;> simp [ZERO]

@[simp] theorem sub_ZERO (a : Vector2) : a - ZERO = a := by
  apply ext' <;> simp [ZERO]

@[simp] theorem add_ZERO (a : Vector2) : a + ZERO = a := by
  apply ext' <;> simp [ZERO]

end Vector2

namespace Hitbox

@[simp] theorem hadd_min (h : Hitbox) (v : Vector2) : (h + v).min = h.min + v := rfl
@[simp] theorem hadd_max (h : Hitbox) (v : Vector2) : (h + v).max = h.max + v := rfl

end Hitbox

/-- C6 counterexample: a freshly constructed `World` carries
`collision_precision = 1`, strictly below the claimed range `[10, 100]`. -/
theorem new_world_precision_one :
    (World.new 60 10).collision_precision = 1 ∧
    ¬(10 ≤ (World.new 60 10).collision_precision ∧
      (World.new 60 10).collision_precision ≤ 100) := by
  constructor
  · rfl
  · decide

/-- C6 (amended): `set_collision_precision` clamps its argument into
`[10, 100]`, but `World::new` itself initializes `collision_precision`
to `1`, outside that range. -/
theorem set_collision_precision_clamped (w : World) (p : Nat) (t r : ℚ) :
    10 ≤ (w.set_collision_precision p).collision_precision ∧
    (w.set_collision_precision p).collision_precision ≤ 100 ∧
    (World.new t r).collision_precision = 1 := by
  refine ⟨?_, ?_, rfl⟩ <;>
    · simp only [World.set_collision_precision, World.clampNat]
      split <;> [omega; (split <;> omega)]

/-- C9: whenever the stored inverse pixel-to-meter factor is the exact
reciprocal of the pixel-to-meter factor, `world_to_screen` inverts
`screen_to_world`; the constructor and both factor setters establish
exactly that reciprocal relationship. -/
theorem screen_world_roundtrip (w w2 : World) (x y wd h t p c : ℚ)
    (hrecip : w.inv_pixel_to_meter * w.pixel_to_meter = 1) (hp : p ≠ 0) :
    w.world_to_screen (w.screen_to_world x y wd h) wd h = (x, y) ∧
    (World.new t p).inv_pixel_to_meter * (World.new t p).pixel_to_meter = 1 ∧
    (w2.set_ptm p).inv_pixel_to_meter * (w2.set_ptm p).pixel_to_meter = 1 ∧
    (w2.change_ptm c).inv_pixel_to_meter * (w2.change_ptm c).pixel_to_meter = 1 := by
  refine ⟨?_, ?_, ?_, ?_⟩
  · simp only [World.world_to_screen, World.screen_to_world, Prod.mk.injEq]
    constructor
    · linear_combination (x - wd * (1/2)) * hrecip
    · linear_combination (y - h * (1/2)) * hrecip
  · simp only [World.new]
    field_simp
  · simp only [World.set_ptm]
    field_simp
  · simp only [World.change_ptm, Attractor.clampQ]
    have hpos : (0:ℚ) < if w2.pixel_to_meter * c < 1 then 1
        else if 1000 < w2.pixel_to_meter * c then 1000 else w2.pixel_to_meter * c := by
      split <;> [norm_num; (split <;> [norm_num; linarith [not_lt.mp (by assumption : ¬w2.pixel_to_meter * c < 1)]])]
    field_simp

/-- C9 witness: the roundtrip at the concrete fresh world with factor 10. -/
theorem screen_world_roundtrip_witness :
    (World.new 60 10).world_to_screen
      ((World.new 60 10).screen_to_world 3 4 800 600) 800 600 = (3, 4) :=
  (screen_world_roundtrip (World.new 60 10) (World.new 60 10) 3 4 800 600 60 10 2
    (by norm_num [World.new]) (by norm_num)).1

/-- Rust `ratSqrt` is exact on squares of naturals. -/
theorem ratSqrt_sq (n : ℕ) : ratSqrt ((n : ℚ) * (n : ℚ)) = n := by
  have h : ((n:ℚ) * (n:ℚ)) = ((n * n : ℕ) : ℚ) := by push_cast; ring
  rw [h]
  unfold ratSqrt
  rw [Rat.num_natCast, Rat.den_natCast, Int.toNat_natCast, Nat.sqrt_eq, Nat.sqrt_one]
  norm_num

/-- C7 counterexample: for the default-range attractor (`d_min = 10`,
`d_max = 20`) and a unit-mass body at squared distance 169, the code's pull
is the direction scaled by `1000 / clamp(169, 10, 20) = 50`, not the
claim's `1000 / clamp(169, 100, 400) = 1000/169`. -/
theorem attraction_clamp_counterexample :
    Attractor.get_attraction testOps cexAttractor cexAttracted =
      (⟨-250/13, -600/13⟩ : Vector2) ∧
    ((cexAttractor.location - cexAttracted.transform.location).normalize_or_zero testOps)
        * |Attractor.G * cexAttractor.mass * cexAttracted.mass /
            Attractor.clampQ
              ((cexAttractor.location - cexAttracted.transform.location).len_squared)
              (cexAttractor.d_min * cexAttractor.d_min)
              (cexAttractor.d_max * cexAttractor.d_max)|
      = (⟨-5000/2197, -12000/2197⟩ : Vector2) ∧
    (⟨-250/13, -600/13⟩ : Vector2) ≠ (⟨-5000/2197, -12000/2197⟩ : Vector2) := by
  have hdir : cexAttractor.location - cexAttracted.transform.location =
      (⟨-5, -12⟩ : Vector2) := by
    refine Vector2.ext' _ _ ?_ ?_ <;> simp [cexAttractor, cexAttracted, Vector2.ZERO]
  have hlen : ((⟨-5, -12⟩ : Vector2)).len_squared = 169 := by
    simp [Vector2.len_squared]; norm_num
  have hsq : testOps.sq ((169 : ℚ)) = 13 := by
    have h13 := ratSqrt_sq 13
    norm_num at h13
    simpa [testOps] using h13
  have hnorm : ((⟨-5, -12⟩ : Vector2)).normalize_or_zero testOps =
      (⟨-5/13, -12/13⟩ : Vector2) := by
    simp only [Vector2.normalize_or_zero, Vector2.len, hlen, hsq]
    norm_num
    refine Vector2.ext' _ _ ?_ ?_ <;> norm_num
  have hloc : ¬(cexAttractor.a_type = AttractorType.Local ∧
      cexAttractor.r * cexAttractor.r <
        (cexAttractor.location - cexAttracted.transform.location).len_squared) := by
    simp [cexAttractor]
  have hclamp : Attractor.clampQ (169 : ℚ) 10 20 = 20 := by
    simp [Attractor.clampQ]
    norm_num
  refine ⟨?_, ?_, ?_⟩
  · rw [Attractor.get_attraction, if_neg hloc]
    rw [hdir, hlen, hnorm]
    show (⟨-5/13, -12/13⟩ : Vector2) *
      |Attractor.G * cexAttractor.mass * cexAttracted.mass / Attractor.clampQ 169 cexAttractor.d_min cexAttractor.d_max| = _
    simp only [cexAttractor, cexAttracted, velBody, Attractor.G]
    rw [hclamp]
    refine Vector2.ext' _ _ ?_ ?_ <;> simp <;> norm_num
  · rw [hdir, hlen, hnorm]
    simp only [cexAttractor, cexAttracted, velBody, Attractor.G]
    have hclamp2 : Attractor.clampQ (169 : ℚ) (10 * 10) (20 * 20) = 169 := by
      simp [Attractor.clampQ]
      norm_num
    rw [show ((10:ℚ) * 10) = 10 * 10 from rfl, hclamp2]
    refine Vector2.ext' _ _ ?_ ?_ <;> simp <;>
      rw [abs_of_pos (show (0:ℚ) < 1000/169 by norm_num)] <;> norm_num
  · intro h
    have hx := congrArg Vector2.x h
    norm_num at hx

/-- C7 (amended): each attractor pulls a body toward its location with
magnitude `|G x massAttractor x massBody / clamp(d^2, dMin, dMax)|` - the
clamp bounds are `d_min` and `d_max` applied directly to the squared
distance, not their squares - and a Local attractor contributes the zero
vector beyond squared distance `r^2`.  `d` is the exact center distance,
pinned to the machine square root by the hypotheses. -/
theorem get_attraction_characterization (F : FloatOps) (a : Attractor)
    (body : Body) (d : ℚ) (hd0 : 0 ≤ d)
    (hdd : d * d = (a.location - body.transform.location).len_squared)
    (hsq : F.sq ((a.location - body.transform.location).len_squared) = d)
    (hne : (a.location - body.transform.location).len_squared ≠ 0) :
    (a.a_type = AttractorType.Local ∧
        a.r * a.r < (a.location - body.transform.location).len_squared →
      a.get_attraction F body = ZERO) ∧
    (¬(a.a_type = AttractorType.Local ∧
        a.r * a.r < (a.location - body.transform.location).len_squared) →
      a.get_attraction F body =
        (a.location - body.transform.location) *
          (|Attractor.G * a.mass * body.mass /
              Attractor.clampQ ((a.location - body.transform.location).len_squared)
                a.d_min a.d_max| / d) ∧
      (a.get_attraction F body).len_squared =
        (Attractor.G * a.mass * body.mass /
          Attractor.clampQ ((a.location - body.transform.location).len_squared)
            a.d_min a.d_max) ^ 2) := by
  have hdne : d ≠ 0 := by
    intro h0
    apply hne
    rw [← hdd, h0, mul_zero]
  constructor
  · intro hcut
    rw [Attractor.get_attraction, if_pos hcut]
  · intro hcut
    rw [Attractor.get_attraction, if_neg hcut]
    set dir := a.location - body.transform.location with hdirdef
    set s := Attractor.G * a.mass * body.mass /
      Attractor.clampQ dir.len_squared a.d_min a.d_max with hsdef
    have hlen : dir.len F = d := hsq
    have hnz : dir.len F ≠ 0 := by rw [hlen]; exact hdne
    have hnorm : dir.normalize_or_zero F = dir * (1 / d) := by
      rw [Vector2.normalize_or_zero, if_neg hnz, hlen]
    constructor
    · rw [hnorm]
      refine Vector2.ext' _ _ ?_ ?_ <;> simp <;> ring
    · rw [hnorm]
      have hx : ((dir * (1 / d)) * |s|).len_squared
          = dir.len_squared * ((1 / d) * |s|) ^ 2 := by
        simp [Vector2.len_squared]
        ring
      rw [hx, ← hdd]
      have hstep : d * d * (1 / d * |s|) ^ 2 = |s| ^ 2 * (d * (1 / d)) ^ 2 := by
        ring
      rw [hstep, mul_one_div_cancel hdne, one_pow, mul_one, sq_abs]

/-- C7 witness: the attraction characterization at the concrete
default-range attractor and the unit-mass body at distance 13. -/
theorem get_attraction_characterization_witness :
    Attractor.get_attraction testOps cexAttractor cexAttracted =
      (cexAttractor.location - cexAttracted.transform.location) *
        (|Attractor.G * cexAttractor.mass * cexAttracted.mass /
            Attractor.clampQ
              ((cexAttractor.location - cexAttracted.transform.location).len_squared)
              cexAttractor.d_min cexAttractor.d_max| / 13) :=
  ((get_attraction_characterization testOps cexAttractor cexAttracted 13
      (by norm_num)
      (by
        simp [cexAttractor, cexAttracted, velBody, Vector2.len_squared, Vector2.ZERO]
        norm_num)
      (by
        have h13 := ratSqrt_sq 13
        norm_num at h13
        have hl : (cexAttractor.location - cexAttracted.transform.location).len_squared
            = 169 := by
          simp [cexAttractor, cexAttracted, velBody, Vector2.len_squared, Vector2.ZERO]
          norm_num
        rw [hl]
        simpa [testOps] using h13)
      (by
        have hl : (cexAttractor.location - cexAttracted.transform.location).len_squared
            = 169 := by
          simp [cexAttractor, cexAttracted, velBody, Vector2.len_squared, Vector2.ZERO]
          norm_num
        rw [hl]
        norm_num)).2
    (by simp [cexAttractor])).1

/-- The bounce factor produced by the `Manifold::setup` contact fold:
`-1` as soon as any processed contact satisfies the squared-velocity
condition, the initial value otherwise. -/
theorem setup_fold_bounce (m : Manifold) (a b : Body) (swf t : Vector2) :
    ∀ (l : List Contact) (cs : List Contact) (b0 : ℚ),
      ((l.foldl (fun (acc : List Contact × ℚ) c =>
        let r := Manifold.setupContact m a b swf t acc.2 c
        (acc.1 ++ [r.1], r.2)) (cs, b0)).2 =
      if ∃ c ∈ l, bounceCondition a b swf c then -1 else b0) := by
  intro l
  induction l with
  | nil => intro cs b0; simp
  | cons c l ih =>
    intro cs b0
    have hstep : (Manifold.setupContact m a b swf t b0 c).2 =
        if bounceCondition a b swf c then -1 else b0 := by
      simp [Manifold.setupContact, bounceCondition]
    simp only [List.foldl_cons, ih, hstep]
    by_cases hc : bounceCondition a b swf c
    · simp [hc]
    · simp [hc]

/-- C8 (amended): `Manifold::setup` overwrites the bounce factor to exactly
`-1` iff for some active contact the SQUARED relative contact velocity is
smaller than the SQUARED per-tick force-induced velocity plus the threshold
`1e-4` (the threshold is added to the squared magnitude); otherwise the
factor keeps its value from `Manifold::new`,
`-(1 + mean restitution of the two materials)`. -/
theorem setup_bounce_factor (m : Manifold) (a b : Body)
    (scaled_world_force : Vector2) (ia ib : Nat) :
    ((m.setup a b scaled_world_force).bounce_factor =
      if ∃ c ∈ m.contacts.take m.contact_count,
          bounceCondition a b scaled_world_force c
      then -1 else m.bounce_factor) ∧
    (Manifold.new a ia b ib).bounce_factor =
      -(1 + (a.material.restitution + b.material.restitution) * (1/2)) := by
  constructor
  · rw [Manifold.setup]
    exact setup_fold_bounce m a b scaled_world_force m.normal.tangent
      (m.contacts.take m.contact_count) [] m.bounce_factor
  · rfl

/-- C8 counterexample: with zero world force and bodies of relative contact
velocity `(9/1000, 0)` (magnitude `9/1000`), the code overwrites the bounce
factor to `-1` because `(9/1000)^2 < 0 + 1e-4`, even though the claim's
linear comparison `9/1000 < 0 + 1e-4` is false and would predict the
constructed value `-(1 + 1/2) = -3/2`. -/
theorem setup_bounce_counterexample :
    ({ Manifold.new (velBody 0) 0 (velBody (9/1000)) 1 with contact_count := 1 }.setup
        (velBody 0) (velBody (9/1000)) ZERO).bounce_factor = -1 ∧
    ¬((9/1000 : ℚ) < ZERO.len_squared + Manifold.BOUNCE_THRESHHOLD) ∧
    (Manifold.new (velBody 0) 0 (velBody (9/1000)) 1).bounce_factor = -(3/2) := by
  refine ⟨?_, ?_, ?_⟩
  · have h := (setup_bounce_factor
      { Manifold.new (velBody 0) 0 (velBody (9/1000)) 1 with contact_count := 1 }
      (velBody 0) (velBody (9/1000)) ZERO 0 1).1
    rw [h, if_pos]
    refine ⟨Contact.default, ?_, ?_⟩
    · simp [Manifold.new]
    · simp [bounceCondition, velBody, Contact.default, Vector2.ZERO,
        Vector2.len_squared, Vector2.cross, Manifold.BOUNCE_THRESHHOLD]
      norm_num
  · simp [Vector2.ZERO, Vector2.len_squared, Manifold.BOUNCE_THRESHHOLD]
    norm_num
  · simp [Manifold.new, velBody, Material.DEFAULT, Material.new]
    norm_num

/-- C10: for more than 8 input vertices `Polygon::new` hits the
out-of-bounds slice copy into the fixed 8-slot array - a panic
(`Except.error`), not a recoverable `None` - and so do the public
constructors `Body::polygon` and `Body::platform_polygon`; the recoverable
`None` arises only for at most 8 vertices whose (centroid-shifted) polygon
fails the convexity check. -/
theorem polygon_new_overflow_panics (F : FloatOps) (x y rotation : ℚ)
    (mat : Material) (verts : List Vector2) :
    (8 < verts.length →
      Polygon.new verts = Except.error () ∧
      Body.polygon F x y verts mat = Except.error () ∧
      Body.platform_polygon F x y verts rotation mat = Except.error ()) ∧
    (Polygon.new verts = Except.ok none →
      verts.length ≤ 8 ∧
      Polygon.is_convex ⟨Polygon.areaOf verts,
        (verts.map (fun v => v + (ZERO - Polygon.centroid verts)),
         verts.length)⟩ = false) := by
  constructor
  · intro hlen
    have hp : Polygon.new verts = Except.error () := by
      rw [Polygon.new]
      simp only [if_pos hlen]
    refine ⟨hp, ?_, ?_⟩
    · rw [Body.polygon, hp]
    · rw [Body.platform_polygon, hp]
  · intro hok
    rw [Polygon.new] at hok
    by_cases hlen : 8 < verts.length
    · simp only [if_pos hlen] at hok
      exact absurd hok (by simp)
    · simp only [if_neg hlen] at hok
      refine ⟨by omega, ?_⟩
      by_cases hcv : Polygon.is_convex ⟨Polygon.areaOf verts,
          (verts.map (fun v => v + (ZERO - Polygon.centroid verts)), verts.length)⟩
      · rw [if_pos hcv] at hok
        exact absurd hok (by simp)
      · simpa using hcv

/-- C10 witness: a 9-vertex input makes `Polygon::new` and `Body::polygon`
panic rather than return `None`. -/
theorem polygon_new_overflow_panics_witness :
    8 < (List.replicate 9 (ZERO : Vector2)).length ∧
    Polygon.new (List.replicate 9 (ZERO : Vector2)) = Except.error () ∧
    Body.polygon testOps 0 0 (List.replicate 9 (ZERO : Vector2))
      Material.DEFAULT = Except.error () :=
  ⟨by simp,
   ((polygon_new_overflow_panics testOps 0 0 0 Material.DEFAULT
      (List.replicate 9 ZERO)).1 (by simp)).1,
   ((polygon_new_overflow_panics testOps 0 0 0 Material.DEFAULT
      (List.replicate 9 ZERO)).1 (by simp)).2.1⟩

/-- C2: for two circle bodies at exact center distance `d` (pinned to the
machine square root by the hypotheses), the narrow phase returns a manifold
iff `d < r1 + r2` (equality counts as no collision); when it does, the
depth is `r1 + r2 - d`, the contact count is exactly 1, and the single
contact point is A's center plus the normal scaled by `r1`. -/
theorem circle_circle_characterization (F : FloatOps) (a b : Body)
    (ia ib : Nat) (ca cb : Circle) (d : ℚ)
    (ha : a.shape = Shape.circle ca) (hb : b.shape = Shape.circle cb)
    (hr : 0 ≤ ca.r + cb.r) (hd0 : 0 ≤ d)
    (hdd : d * d = (b.transform.location - a.transform.location).len_squared)
    (hsq : F.sq ((b.transform.location - a.transform.location).len_squared) = d) :
    ((circle_circle F a ia b ib).isSome ↔ d < ca.r + cb.r) ∧
    (∀ m, circle_circle F a ia b ib = some m →
      m.depth = ca.r + cb.r - d ∧
      m.contact_count = 1 ∧
      (m.contacts.getD 0 Contact.default).location =
        a.transform.location + m.normal * ca.r) := by
  rw [circle_circle, ha, hb]
  simp only [Shape.copy_as_circle]
  by_cases hcond : (ca.r + cb.r) * (ca.r + cb.r) ≤
      (b.transform.location - a.transform.location).len_squared
  · rw [if_pos hcond]
    constructor
    · simp only [Option.isSome_none, Bool.false_eq_true, false_iff, not_lt]
      nlinarith [hcond, hdd]
    · intro m hm
      exact absurd hm (by simp)
  · rw [if_neg hcond]
    push_neg at hcond
    constructor
    · simp only [Option.isSome_some, true_iff]
      nlinarith [hcond, hdd]
    · intro m hm
      have hmv := hm.symm
      injection hmv with hmv'
      subst hmv'
      refine ⟨?_, rfl, ?_⟩
      · simp only [Vector2.len, hsq]
      · simp [List.getD]

/-- C2 witness: circles of radius 3 at `(0,0)` and `(3,4)` - distance 5,
colliding, depth 1. -/
theorem circle_circle_characterization_witness :
    ((circle_circle testOps (circBody 0 0) 0 (circBody 3 4) 1).isSome ↔
      (5:ℚ) < (Circle.new testOps 3).r + (Circle.new testOps 3).r) ∧
    (∀ m, circle_circle testOps (circBody 0 0) 0 (circBody 3 4) 1 = some m →
      m.depth = (Circle.new testOps 3).r + (Circle.new testOps 3).r - 5 ∧
      m.contact_count = 1 ∧
      (m.contacts.getD 0 Contact.default).location =
        (circBody 0 0).transform.location + m.normal * (Circle.new testOps 3).r) :=
  circle_circle_characterization testOps (circBody 0 0) (circBody 3 4) 0 1
    (Circle.new testOps 3) (Circle.new testOps 3) 5 rfl rfl
    (by norm_num [Circle.new, testOps])
    (by norm_num)
    (by
      simp [circBody, velBody, Vector2.len_squared, Vector2.ZERO]
      norm_num)
    (by
      have hl : ((circBody 3 4).transform.location -
          (circBody 0 0).transform.location).len_squared = 25 := by
        simp [circBody, velBody, Vector2.len_squared, Vector2.ZERO]
        norm_num
      rw [hl]
      have h5 := ratSqrt_sq 5
      norm_num at h5
      simpa [testOps] using h5)

/-- Folding conditional pushes is filtering. -/
theorem foldl_push_filter {α : Type} (f : α → Bool) :
    ∀ (l : List α) (init : List α),
      l.foldl (fun acc x => if f x then acc ++ [x] else acc) init =
        init ++ l.filter f := by
  intro l
  induction l with
  | nil => intro init; simp
  | cons x l ih =>
    intro init
    by_cases hx : f x
    · simp [hx, ih, List.filter_cons]
    · simp [hx, ih, List.filter_cons]

/-- Membership in the broad-phase candidate pair enumeration. -/
theorem mem_pairList (n i j : Nat) :
    (i, j) ∈ World.pairList n ↔ i < j ∧ j < n := by
  simp only [World.pairList, List.mem_flatMap, List.mem_map, List.mem_range,
    List.mem_range'_1, Prod.mk.injEq]
  constructor
  · rintro ⟨a, ha, b, ⟨hb1, hb2⟩, rfl, rfl⟩
    omega
  · rintro ⟨hij, hjn⟩
    exact ⟨i, by omega, j, ⟨by omega, by omega⟩, rfl, rfl⟩

/-- The broad-phase hitbox test is exactly the strict world-space overlap. -/
theorem hitboxes_collide_iff (a b : Body) :
    hitboxes_collide a b = true ↔ strictOverlap a b := by
  rw [hitboxes_collide, strictOverlap]
  split_ifs with h1 h2
  · simp only [Bool.false_eq_true, false_iff]
    rintro ⟨k1, k2, k3, k4⟩
    rcases h1 with h | h <;> linarith
  · simp only [Bool.false_eq_true, false_iff]
    rintro ⟨k1, k2, k3, k4⟩
    rcases h2 with h | h <;> linarith
  · simp only [true_iff]
    push_neg at h1 h2
    exact ⟨by linarith [h1.1], by linarith [h1.2], by linarith [h2.1],
      by linarith [h2.2]⟩

/-- C4: starting from an empty candidate list, the broad phase produces
exactly the unordered index pairs `(i, j)`, `i < j`, of bodies whose
world-space hitboxes strictly overlap on both axes, excluding pairs of two
Static bodies; it produces no manifolds and no contact points. -/
theorem broad_phase_characterization (w : World)
    (hpc : w.possible_collisions = []) :
    (∀ i j : Nat, ((i, j) ∈ w.broad_phase.possible_collisions ↔
      i < j ∧ j < w.bodies.length ∧
      ¬bothStatic (w.bodies.getD i default) (w.bodies.getD j default) ∧
      strictOverlap (w.bodies.getD i default) (w.bodies.getD j default))) ∧
    w.broad_phase.manifolds = w.manifolds ∧
    w.broad_phase.collision_points = [] := by
  refine ⟨?_, rfl, rfl⟩
  intro i j
  have hstep : (fun (acc : List (Nat × Nat)) (ij : Nat × Nat) =>
      let a := w.bodies.getD ij.1 default
      let b := w.bodies.getD ij.2 default
      if a.body_type = BodyType.Static ∧ b.body_type = BodyType.Static then acc
      else if hitboxes_collide a b then acc ++ [ij] else acc) =
      (fun (acc : List (Nat × Nat)) (ij : Nat × Nat) =>
        if (!decide (bothStatic (w.bodies.getD ij.1 default) (w.bodies.getD ij.2 default))
            && hitboxes_collide (w.bodies.getD ij.1 default) (w.bodies.getD ij.2 default))
        then acc ++ [ij] else acc) := by
    funext acc ij
    simp only [Bool.and_eq_true, Bool.not_eq_true', decide_eq_false_iff_not,
      bothStatic]
    split_ifs <;> first | rfl | tauto
  show (i, j) ∈ (World.pairList w.bodies.length).foldl _ w.possible_collisions ↔ _
  rw [hstep, foldl_push_filter, hpc, List.nil_append, List.mem_filter,
    mem_pairList]
  rw [Bool.and_eq_true, Bool.not_eq_true', decide_eq_false_iff_not,
    hitboxes_collide_iff]
  tauto

/-- C4 witness: a two-body world (one Static, one Dynamic, overlapping
boxes at the origin) whose fresh candidate list is empty. -/
theorem broad_phase_characterization_witness :
    ((0, 1) ∈ (((World.new 60 10).add_body (velBody 0)).add_body
        (velBody 0)).broad_phase.possible_collisions ↔
      0 < 1 ∧ 1 < (((World.new 60 10).add_body (velBody 0)).add_body
        (velBody 0)).bodies.length ∧
      ¬bothStatic ((((World.new 60 10).add_body (velBody 0)).add_body
          (velBody 0)).bodies.getD 0 default)
        ((((World.new 60 10).add_body (velBody 0)).add_body
          (velBody 0)).bodies.getD 1 default) ∧
      strictOverlap ((((World.new 60 10).add_body (velBody 0)).add_body
          (velBody 0)).bodies.getD 0 default)
        ((((World.new 60 10).add_body (velBody 0)).add_body
          (velBody 0)).bodies.getD 1 default)) :=
  (broad_phase_characterization
    (((World.new 60 10).add_body (velBody 0)).add_body (velBody 0)) rfl).1 0 1

/-- The SAT scan aborts with `none` exactly when some tested axis has
separated (or merely touching) projection intervals. -/
theorem satScan_eq_none_iff (a b : Body) :
    ∀ (axes : List Vector2) (acc : ℚ × Vector2),
      satScan a b axes acc = none ↔ ∃ ax ∈ axes, satSeparated a b ax = true := by
  intro axes
  induction axes with
  | nil => intro acc; simp [satScan]
  | cons ax rest ih =>
    intro acc
    by_cases hs : satSeparated a b ax = true
    · simp [satScan, hs]
    · simp only [satScan, hs, if_false, Bool.false_eq_true]
      constructor
      · intro h
        split_ifs at h <;>
          · obtain ⟨ax', hax', hsep⟩ := (ih _).mp h
            exact ⟨ax', List.mem_cons_of_mem _ hax', hsep⟩
      · rintro ⟨ax', hax', hsep⟩
        rcases List.mem_cons.mp hax' with rfl | hax'
        · exact absurd hsep hs
        · split_ifs <;> exact (ih _).mpr ⟨ax', hax', hsep⟩

/-- When the SAT scan completes, its result is bounded by the initial
accumulator and by every tested axis overlap, and is either the initial
accumulator or the overlap of one of the tested axes with that axis as
normal. -/
theorem satScan_some_spec (a b : Body) :
    ∀ (axes : List Vector2) (acc : ℚ × Vector2) (d : ℚ) (n : Vector2),
      satScan a b axes acc = some (d, n) →
      d ≤ acc.1 ∧ (∀ ax ∈ axes, d ≤ satOverlap a b ax) ∧
      ((d = acc.1 ∧ n = acc.2) ∨
        (∃ ax ∈ axes, d = satOverlap a b ax ∧ n = ax)) := by
  intro axes
  induction axes with
  | nil =>
    intro acc d n h
    simp only [satScan, Option.some.injEq] at h
    subst h
    exact ⟨le_refl _, by simp, Or.inl ⟨rfl, rfl⟩⟩
  | cons ax rest ih =>
    intro acc d n h
    simp only [satScan] at h
    by_cases hs : satSeparated a b ax = true
    · rw [if_pos hs] at h; exact absurd h (by simp)
    · rw [if_neg hs] at h
      by_cases hd : satOverlap a b ax < acc.1
      · rw [if_pos hd] at h
        obtain ⟨h1, h2, h3⟩ := ih (satOverlap a b ax, ax) d n h
        refine ⟨le_trans h1 (le_of_lt hd), ?_, ?_⟩
        · intro ax' hax'
          rcases List.mem_cons.mp hax' with rfl | hax'
          · exact h1
          · exact h2 ax' hax'
        · rcases h3 with ⟨hd1, hn1⟩ | ⟨ax', hax', hd1, hn1⟩
          · exact Or.inr ⟨ax, List.mem_cons_self _ _, hd1, hn1⟩
          · exact Or.inr ⟨ax', List.mem_cons_of_mem _ hax', hd1, hn1⟩
      · rw [if_neg hd] at h
        push_neg at hd
        obtain ⟨h1, h2, h3⟩ := ih acc d n h
        refine ⟨h1, ?_, ?_⟩
        · intro ax' hax'
          rcases List.mem_cons.mp hax' with rfl | hax'
          · exact le_trans h1 hd
          · exact h2 ax' hax'
        · rcases h3 with ⟨hd1, hn1⟩ | ⟨ax', hax', hd1, hn1⟩
          · exact Or.inl ⟨hd1, hn1⟩
          · exact Or.inr ⟨ax', List.mem_cons_of_mem _ hax', hd1, hn1⟩

/-- C5: `polygon_polygon` returns `None` iff some tested axis (a normalized
edge tangent of either polygon) has non-overlapping (or touching) projected
intervals; otherwise the manifold depth is the minimum interval overlap
over all tested axes, the normal is such a minimum axis possibly flipped,
and the returned normal has non-negative dot product with the
center-to-center offset from A to B. -/
theorem polygon_polygon_sat (F : FloatOps) (a b : Body) (ia ib : Nat)
    (hover : ∃ ax ∈ polyAxes F a ++ polyAxes F b,
      satOverlap a b ax < Body.f32MAX) :
    (polygon_polygon F a ia b ib = none ↔
      ∃ ax ∈ polyAxes F a ++ polyAxes F b, satSeparated a b ax = true) ∧
    (∀ m, polygon_polygon F a ia b ib = some m →
      (∀ ax ∈ polyAxes F a ++ polyAxes F b, m.depth ≤ satOverlap a b ax) ∧
      (∃ ax ∈ polyAxes F a ++ polyAxes F b, m.depth = satOverlap a b ax ∧
        (m.normal = ax ∨ m.normal = ax * (-1 : ℚ))) ∧
      0 ≤ (b.transform.location - a.transform.location).dotted m.normal) := by
  rcases hscan : satScan a b (polyAxes F a ++ polyAxes F b) (Body.f32MAX, ZERO)
    with _ | ⟨d, n0⟩
  · constructor
    · rw [polygon_polygon, hscan]
      simp only [true_iff]
      exact (satScan_eq_none_iff a b _ _).mp hscan
    · intro m hm
      rw [polygon_polygon, hscan] at hm
      exact absurd hm (by simp)
  · obtain ⟨h1, h2, h3⟩ := satScan_some_spec a b _ _ d n0 hscan
    have hdlt : d < Body.f32MAX := by
      obtain ⟨ax0, hax0, hov0⟩ := hover
      exact lt_of_le_of_lt (h2 ax0 hax0) hov0
    have h3' : ∃ ax ∈ polyAxes F a ++ polyAxes F b,
        d = satOverlap a b ax ∧ n0 = ax := by
      rcases h3 with ⟨hd1, _⟩ | h3'
      · exact absurd hd1 (by intro hh; rw [hh] at hdlt; exact absurd hdlt (lt_irrefl _))
      · exact h3'
    constructor
    · rw [polygon_polygon, hscan]
      constructor
      · intro hcontra
        exact absurd hcontra (by cases contacts_double a b with
          | mk c1 c2 => cases c2 <;> simp)
      · intro hsep
        exact absurd hscan (by rw [(satScan_eq_none_iff a b _ _).mpr hsep]; simp)
    · intro m hm
      rw [polygon_polygon, hscan] at hm
      have hdepth : m.depth = d ∧
          m.normal = (if (b.transform.location - a.transform.location).dotted n0 < 0
            then n0 * (-1 : ℚ) else n0) := by
        rcases hcc : contacts_double a b with ⟨c1, c2⟩
        rw [hcc] at hm
        cases c2 <;>
          · simp only [Option.some.injEq] at hm
            rw [← hm]
            exact ⟨rfl, rfl⟩
      obtain ⟨ax, hax, hdov, hnax⟩ := h3'
      refine ⟨?_, ⟨ax, hax, ?_, ?_⟩, ?_⟩
      · intro ax' hax'
        rw [hdepth.1]
        exact h2 ax' hax'
      · rw [hdepth.1]; exact hdov
      · rw [hdepth.2, hnax]
        split_ifs <;> [exact Or.inr rfl; exact Or.inl rfl]
      · rw [hdepth.2]
        split_ifs with hflip
        · have : (b.transform.location - a.transform.location).dotted (n0 * (-1 : ℚ))
              = -((b.transform.location - a.transform.location).dotted n0) := by
            simp [Vector2.dotted]
            ring
          rw [this]
          linarith
        · linarith [not_lt.mp hflip]

/-- C5 witness: the SAT characterization at two overlapping unit squares. -/
theorem polygon_polygon_sat_witness :
    polygon_polygon testOps (sqBody 0 0) 0 (sqBody 1 0) 1 = none ↔
      ∃ ax ∈ polyAxes testOps (sqBody 0 0) ++ polyAxes testOps (sqBody 1 0),
        satSeparated (sqBody 0 0) (sqBody 1 0) ax = true :=
  (polygon_polygon_sat testOps (sqBody 0 0) (sqBody 1 0) 0 1
    ⟨⟨0, 1⟩,
     by
      have h4 : ratSqrt 4 = 2 := by
        have h2 := ratSqrt_sq 2
        norm_num at h2
        exact h2
      norm_num [polyAxes, sqBody, Body.get_moved_vertices, Body.get_vertices,
        List.range_succ, Vector2.normalize, Vector2.len, Vector2.len_squared,
        Vector2.tangent, testOps, h4, Vector2.ZERO]
      left
      refine Vector2.ext' _ _ ?_ ?_ <;> norm_num,
     by
      norm_num [satOverlap, sat_projection, sqBody, Body.get_moved_vertices,
        Body.get_vertices, Vector2.dot, Body.f32MAX, Body.f32MIN, Vector2.ZERO,
        Rustycs.dot]⟩).1

-- --------------------- static-body preservation lemmas ---------------------

/-- Rust `getD` after `set`. -/
theorem getD_set (l : List Body) (k i : Nat) (v : Body) :
    (l.set k v).getD i default =
      if k = i ∧ k < l.length then v else l.getD i default := by
  rw [List.getD_eq_getElem?_getD, List.getD_eq_getElem?_getD, List.getElem?_set]
  by_cases hk : k = i
  · subst hk
    by_cases hlen : k < l.length
    · simp [hlen]
    · simp [hlen, List.getElem?_eq_none (le_of_not_lt hlen)]
  · simp [hk]

/-- The default `Body` is Dynamic. -/
theorem default_body_dynamic : (default : Body).body_type = BodyType.Dynamic := rfl

/-- An impulse applied to a body with zero inverse mass and zero inverse
inertia leaves it unchanged (`a` side). -/
theorem apply_impulses_fst (a b : Body) (impulse ac bc : Vector2)
    (hm : a.inverse_mass = 0) (hi : a.inverse_inertia = 0) :
    (apply_impulses a b impulse ac bc).1 = a := by
  obtain ⟨nm, sh, ⟨loc, vel, ang⟩, mat, hb, vs, vc, bt, ms, im, it, ii⟩ := a
  dsimp only at hm hi
  subst hm
  subst hi
  simp [apply_impulses]

/-- An impulse applied to a body with zero inverse mass and zero inverse
inertia leaves it unchanged (`b` side). -/
theorem apply_impulses_snd (a b : Body) (impulse ac bc : Vector2)
    (hm : b.inverse_mass = 0) (hi : b.inverse_inertia = 0) :
    (apply_impulses a b impulse ac bc).2 = b := by
  obtain ⟨nm, sh, ⟨loc, vel, ang⟩, mat, hb, vs, vc, bt, ms, im, it, ii⟩ := b
  dsimp only at hm hi
  subst hm
  subst hi
  simp [apply_impulses]

/-- One contact resolution step leaves a zero-inverse-mass body unchanged. -/
theorem resolveContact_fst (m : Manifold) (a b : Body) (c : Contact)
    (hm : a.inverse_mass = 0) (hi : a.inverse_inertia = 0) :
    (resolveContact m (a, b) c).1 = a := by
  obtain ⟨nm, sh, ⟨loc, vel, ang⟩, mat, hb, vs, vc, bt, ms, im, it, ii⟩ := a
  dsimp only at hm hi
  subst hm
  subst hi
  simp [resolveContact, apply_impulses]

theorem resolveContact_snd (m : Manifold) (a b : Body) (c : Contact)
    (hm : b.inverse_mass = 0) (hi : b.inverse_inertia = 0) :
    (resolveContact m (a, b) c).2 = b := by
  obtain ⟨nm, sh, ⟨loc, vel, ang⟩, mat, hb, vs, vc, bt, ms, im, it, ii⟩ := b
  dsimp only at hm hi
  subst hm
  subst hi
  simp [resolveContact, apply_impulses]

/-- Rust `resolve` leaves a zero-inverse-mass body `a` unchanged. -/
theorem resolve_fst (m : Manifold) (a b : Body)
    (hm : a.inverse_mass = 0) (hi : a.inverse_inertia = 0) :
    (resolve m a b).1 = a := by
  rw [resolve]
  generalize m.contacts.take m.contact_count = l
  induction l generalizing b with
  | nil => rfl
  | cons c l ih =>
    rw [List.foldl_cons,
      show resolveContact m (a, b) c = (a, (resolveContact m (a, b) c).2) from
        Prod.ext (resolveContact_fst m a b c hm hi) rfl]
    exact ih _

theorem resolve_snd (m : Manifold) (a b : Body)
    (hm : b.inverse_mass = 0) (hi : b.inverse_inertia = 0) :
    (resolve m a b).2 = b := by
  rw [resolve]
  generalize m.contacts.take m.contact_count = l
  induction l generalizing a with
  | nil => rfl
  | cons c l ih =>
    rw [List.foldl_cons,
      show resolveContact m (a, b) c = ((resolveContact m (a, b) c).1, b) from
        Prod.ext rfl (resolveContact_snd m a b c hm hi)]
    exact ih _

/-- Rust `resolve_collision` never moves a body whose inverse mass and inverse
inertia are zero. -/
theorem resolve_collision_getD (m : Manifold) (bodies : List Body) (i : Nat)
    (hm : (bodies.getD i default).inverse_mass = 0)
    (hi : (bodies.getD i default).inverse_inertia = 0) :
    (resolve_collision m bodies).getD i default = bodies.getD i default := by
  rw [resolve_collision]
  rw [getD_set, List.length_set, getD_set]
  by_cases hbi : m.b_idx = i ∧ m.b_idx < bodies.length
  · rw [if_pos hbi]
    obtain ⟨rfl, _⟩ := hbi
    exact resolve_snd _ _ _ hm hi
  · rw [if_neg hbi]
    by_cases hai : m.a_idx = i ∧ m.a_idx < bodies.length
    · rw [if_pos hai]
      obtain ⟨rfl, _⟩ := hai
      exact resolve_fst _ _ _ hm hi
    · rw [if_neg hai]

/-- A positional shift scaled by a zero inverse mass is the identity
(`-=` side of `correct_position`). -/
theorem body_shift_sub_zero (bd : Body) (corr : Vector2)
    (hm : bd.inverse_mass = 0) :
    ({ bd with transform := { bd.transform with
        location := bd.transform.location - corr * bd.inverse_mass } } : Body)
      = bd := by
  obtain ⟨nm, sh, ⟨loc, vel, ang⟩, mat, hb, vs, vc, bt, ms, im, it, ii⟩ := bd
  dsimp only at hm
  subst hm
  simp

/-- A positional shift scaled by a zero inverse mass is the identity
(`+=` side of `correct_position`). -/
theorem body_shift_add_zero (bd : Body) (corr : Vector2)
    (hm : bd.inverse_mass = 0) :
    ({ bd with transform := { bd.transform with
        location := bd.transform.location + corr * bd.inverse_mass } } : Body)
      = bd := by
  obtain ⟨nm, sh, ⟨loc, vel, ang⟩, mat, hb, vs, vc, bt, ms, im, it, ii⟩ := bd
  dsimp only at hm
  subst hm
  simp

/-- Rust `correct_position` never moves a body whose inverse mass and inverse
inertia are zero. -/
theorem correct_position_getD (m : Manifold) (bodies : List Body) (i : Nat)
    (hm : (bodies.getD i default).inverse_mass = 0) :
    (correct_position m bodies).getD i default = bodies.getD i default := by
  rw [correct_position]
  rw [getD_set, List.length_set, getD_set]
  by_cases hbi : m.b_idx = i ∧ m.b_idx < bodies.length
  · rw [if_pos hbi]
    obtain ⟨rfl, _⟩ := hbi
    exact body_shift_add_zero _ _ hm
  · rw [if_neg hbi]
    by_cases hai : m.a_idx = i ∧ m.a_idx < bodies.length
    · rw [if_pos hai]
      obtain ⟨rfl, _⟩ := hai
      exact body_shift_sub_zero _ _ hm
    · rw [if_neg hai]

/-- The resolver pass over all manifolds preserves zero-inverse-mass
bodies. -/
theorem resolve_collisions_getD (ms : List Manifold) (bodies : List Body)
    (i : Nat)
    (hm : (bodies.getD i default).inverse_mass = 0)
    (hi : (bodies.getD i default).inverse_inertia = 0) :
    (ms.foldl (fun bs m => resolve_collision m bs) bodies).getD i default =
      bodies.getD i default := by
  induction ms generalizing bodies with
  | nil => rfl
  | cons m ms ih =>
    rw [List.foldl_cons]
    have hpres := resolve_collision_getD m bodies i hm hi
    rw [ih (resolve_collision m bodies) (by rw [hpres]; exact hm)
      (by rw [hpres]; exact hi), hpres]

/-- The positional-correction pass over all manifolds preserves
zero-inverse-mass bodies. -/
theorem correct_positions_getD (ms : List Manifold) (bodies : List Body)
    (i : Nat)
    (hm : (bodies.getD i default).inverse_mass = 0) :
    (ms.foldl (fun bs m => correct_position m bs) bodies).getD i default =
      bodies.getD i default := by
  induction ms generalizing bodies with
  | nil => rfl
  | cons m ms ih =>
    rw [List.foldl_cons]
    have hpres := correct_position_getD m bodies i hm
    rw [ih (correct_position m bodies) (by rw [hpres]; exact hm), hpres]

/-- The narrow phase never touches the body list. -/
theorem narrow_phase_bodies (F : FloatOps) (w : World) :
    (World.narrow_phase F w).bodies = w.bodies := by
  rw [World.narrow_phase]
  generalize w.possible_collisions = pc
  suffices hgen : ∀ (l : List (Nat × Nat)) (w' : World),
      (l.foldl (fun wacc coll =>
        match detect_collision F (wacc.bodies.getD coll.1 default) coll.1
            (wacc.bodies.getD coll.2 default) coll.2 with
        | some manifold =>
          { wacc with
            collision_points := wacc.collision_points ++
              ((manifold.contacts.take manifold.contact_count).map Contact.location)
            manifolds := wacc.manifolds ++ [manifold] }
        | none => wacc) w').bodies = w'.bodies by
    exact hgen pc _
  intro l
  induction l with
  | nil => intro w'; rfl
  | cons coll l ih =>
    intro w'
    rw [List.foldl_cons, ih]
    rcases detect_collision F (w'.bodies.getD coll.1 default) coll.1
        (w'.bodies.getD coll.2 default) coll.2 with _ | mf <;> rfl

/-- Mapping a function that fixes Static bodies preserves a Static entry. -/
theorem map_getD_static (l : List Body) (f : Body → Body) (i : Nat)
    (hfix : ∀ b : Body, b.body_type = BodyType.Static → f b = b)
    (hstat : (l.getD i default).body_type = BodyType.Static) :
    (l.map f).getD i default = l.getD i default := by
  rcases hv : l[i]? with _ | b
  · rw [List.getD_eq_getElem?_getD, List.getD_eq_getElem?_getD,
      List.getElem?_map, hv]
    rfl
  · have hb : l.getD i default = b := by
      rw [List.getD_eq_getElem?_getD, hv]
      rfl
    rw [hb] at hstat
    rw [List.getD_eq_getElem?_getD, List.getElem?_map, hv, hb]
    show (some (f b)).getD default = b
    rw [Option.getD_some, hfix b hstat]

/-- The force phase leaves Static bodies untouched. -/
theorem forcesPhase_getD_static (F : FloatOps) (w : World) (i : Nat)
    (hstat : (w.bodies.getD i default).body_type = BodyType.Static) :
    (forcesPhase F w).bodies.getD i default = w.bodies.getD i default := by
  apply map_getD_static _ _ _ _ hstat
  intro b hb
  simp [hb]

/-- The integration phase leaves Static bodies untouched. -/
theorem integratePhase_getD_static (F : FloatOps) (w : World) (i : Nat)
    (hstat : (w.bodies.getD i default).body_type = BodyType.Static) :
    (integratePhase F w).bodies.getD i default = w.bodies.getD i default := by
  apply map_getD_static _ _ _ _ hstat
  intro b hb
  simp [hb]

/-- The guarded resolution phase leaves zero-inverse-mass bodies
untouched. -/
theorem resolutionPhase_getD (w : World) (i : Nat)
    (hm : (w.bodies.getD i default).inverse_mass = 0)
    (hi : (w.bodies.getD i default).inverse_inertia = 0) :
    (resolutionPhase w).bodies.getD i default = w.bodies.getD i default := by
  rw [resolutionPhase]
  split_ifs with hemp
  · rfl
  · have hiter : ∀ (k : Nat) (w' : World),
        (w'.bodies.getD i default).inverse_mass = 0 →
        (w'.bodies.getD i default).inverse_inertia = 0 →
        (World.resolve_collisions^[k] w').bodies.getD i default =
          w'.bodies.getD i default := by
      intro k
      induction k with
      | zero => intro w' _ _; rfl
      | succ k ihk =>
        intro w' hm' hi'
        rw [Function.iterate_succ_apply]
        have hone : (w'.resolve_collisions).bodies.getD i default =
            w'.bodies.getD i default :=
          resolve_collisions_getD w'.manifolds w'.bodies i hm' hi'
        rw [ihk _ (by rw [hone]; exact hm') (by rw [hone]; exact hi'), hone]
    have hwb := hiter (w.setup_resolutions).collision_precision
      w.setup_resolutions hm hi
    have hwc := correct_positions_getD
      (World.resolve_collisions^[(w.setup_resolutions).collision_precision]
        w.setup_resolutions).manifolds
      (World.resolve_collisions^[(w.setup_resolutions).collision_precision]
        w.setup_resolutions).bodies i
      (by rw [hwb]; exact hm)
    exact hwc.trans hwb

/-- One `World::update` leaves a Static body with zero inverse mass and
inertia exactly in place. -/
theorem update_getD_static (F : FloatOps) (w : World) (i : Nat)
    (hstat : (w.bodies.getD i default).body_type = BodyType.Static)
    (hm : (w.bodies.getD i default).inverse_mass = 0)
    (hi : (w.bodies.getD i default).inverse_inertia = 0) :
    (World.update F w).bodies.getD i default = w.bodies.getD i default := by
  have hcomp : World.update F w =
      integratePhase F (resolutionPhase
        (forcesPhase F (World.narrow_phase F w.broad_phase))) := rfl
  rw [hcomp]
  have hb : (World.narrow_phase F w.broad_phase).bodies = w.bodies :=
    narrow_phase_bodies F w.broad_phase
  have h3 : (forcesPhase F (World.narrow_phase F w.broad_phase)).bodies.getD i
      default = w.bodies.getD i default := by
    rw [forcesPhase_getD_static F _ i (by rw [hb]; exact hstat), hb]
  have h4 : (resolutionPhase
      (forcesPhase F (World.narrow_phase F w.broad_phase))).bodies.getD i
      default = w.bodies.getD i default := by
    rw [resolutionPhase_getD _ i (by rw [h3]; exact hm) (by rw [h3]; exact hi),
      h3]
  rw [integratePhase_getD_static F _ i (by rw [h4]; exact hstat), h4]

/-- Iterated updates leave such a body in place. -/
theorem update_iterate_getD_static (F : FloatOps) (w : World) (i : Nat)
    (hstat : (w.bodies.getD i default).body_type = BodyType.Static)
    (hm : (w.bodies.getD i default).inverse_mass = 0)
    (hi : (w.bodies.getD i default).inverse_inertia = 0) :
    ∀ n : Nat, ((World.update F)^[n] w).bodies.getD i default =
      w.bodies.getD i default := by
  intro n
  induction n with
  | zero => rfl
  | succ n ihn =>
    rw [Function.iterate_succ_apply',
      update_getD_static F _ i (by rw [ihn]; exact hstat)
        (by rw [ihn]; exact hm) (by rw [ihn]; exact hi), ihn]

/-- Rust `Body::new` gives Static bodies zero inverse mass and inertia. -/
theorem body_new_static_zeros (F : FloatOps) (x y : ℚ) (sh : Shape)
    (mat : Material) (nm : Option String) :
    (Body.new F x y sh BodyType.Static mat nm).inverse_mass = 0 ∧
    (Body.new F x y sh BodyType.Static mat nm).inverse_inertia = 0 ∧
    (Body.new F x y sh BodyType.Static mat nm).body_type = BodyType.Static := by
  cases sh with
  | circle c =>
    exact ⟨rfl, rfl, rfl⟩
  | aabb r =>
    exact ⟨rfl, rfl, rfl⟩
  | polygon p =>
    exact ⟨rfl, rfl, rfl⟩

/-- C3: a body whose `body_type` is Static and which carries zero inverse
mass and zero inverse inertia - exactly what `Body::new` establishes for
Static bodies - keeps its location, velocity and angular velocity unchanged
across any number of `World::update` calls, whatever the forces, attractors
and colliding Dynamic bodies. -/
theorem static_bodies_never_move (F : FloatOps) (w : World) (i n : Nat)
    (b : Body) (x y : ℚ) (sh : Shape) (mat : Material) (nm : Option String)
    (hb : w.bodies.getD i default = b)
    (hstat : b.body_type = BodyType.Static)
    (hm : b.inverse_mass = 0) (hi : b.inverse_inertia = 0) :
    ((((World.update F)^[n] w).bodies.getD i default).transform.location =
      b.transform.location ∧
     (((World.update F)^[n] w).bodies.getD i default).transform.velocity =
      b.transform.velocity ∧
     (((World.update F)^[n] w).bodies.getD i default).transform.angular_velocity =
      b.transform.angular_velocity) ∧
    ((Body.new F x y sh BodyType.Static mat nm).inverse_mass = 0 ∧
     (Body.new F x y sh BodyType.Static mat nm).inverse_inertia = 0 ∧
     (Body.new F x y sh BodyType.Static mat nm).body_type = BodyType.Static) := by
  subst hb
  have hpres := update_iterate_getD_static F w i hstat hm hi n
  exact ⟨⟨by rw [hpres], by rw [hpres], by rw [hpres]⟩,
    body_new_static_zeros F x y sh mat nm⟩

/-- C3 witness: a Static platform in a world with a Dynamic body, two
ticks. -/
theorem static_bodies_never_move_witness :
    ((((World.update testOps)^[2]
        (((World.new 60 10).add_body
          (Body.platform_rectangle_aabb testOps 0 0 2 2 Material.DEFAULT)).add_body
          (velBody 0))).bodies.getD 0 default).transform.location =
      (Body.platform_rectangle_aabb testOps 0 0 2 2
        Material.DEFAULT).transform.location ∧
     (((World.update testOps)^[2]
        (((World.new 60 10).add_body
          (Body.platform_rectangle_aabb testOps 0 0 2 2 Material.DEFAULT)).add_body
          (velBody 0))).bodies.getD 0 default).transform.velocity =
      (Body.platform_rectangle_aabb testOps 0 0 2 2
        Material.DEFAULT).transform.velocity ∧
     (((World.update testOps)^[2]
        (((World.new 60 10).add_body
          (Body.platform_rectangle_aabb testOps 0 0 2 2 Material.DEFAULT)).add_body
          (velBody 0))).bodies.getD 0 default).transform.angular_velocity =
      (Body.platform_rectangle_aabb testOps 0 0 2 2
        Material.DEFAULT).transform.angular_velocity) ∧
    ((Body.new testOps 0 0 (Shape.aabb (AABB.new 2 2)) BodyType.Static
        Material.DEFAULT none).inverse_mass = 0 ∧
     (Body.new testOps 0 0 (Shape.aabb (AABB.new 2 2)) BodyType.Static
        Material.DEFAULT none).inverse_inertia = 0 ∧
     (Body.new testOps 0 0 (Shape.aabb (AABB.new 2 2)) BodyType.Static
        Material.DEFAULT none).body_type = BodyType.Static) :=
  static_bodies_never_move testOps
    (((World.new 60 10).add_body
      (Body.platform_rectangle_aabb testOps 0 0 2 2 Material.DEFAULT)).add_body
      (velBody 0))
    0 2 (Body.platform_rectangle_aabb testOps 0 0 2 2 Material.DEFAULT)
    0 0 (Shape.aabb (AABB.new 2 2)) Material.DEFAULT none
    rfl rfl rfl rfl

/-- C1: one `World::update` is exactly the strictly ordered composition of
the five spec phases - broad phase, narrow phase, the force phase over
Dynamic bodies only, the manifold-guarded resolution phase (one setup pass,
`collision_precision` velocity passes, one positional correction), and the
integration phase over Dynamic bodies only - and the manifold map is empty
when `update` returns; the force and integration phases skip Static bodies
entirely. -/
theorem update_phase_order (F : FloatOps) (w w' : World) (i : Nat)
    (hstat : (w'.bodies.getD i default).body_type = BodyType.Static) :
    World.update F w =
      integratePhase F (resolutionPhase
        (forcesPhase F (World.narrow_phase F w.broad_phase))) ∧
    (World.update F w).manifolds = [] ∧
    (forcesPhase F w').bodies.getD i default = w'.bodies.getD i default ∧
    (integratePhase F w').bodies.getD i default = w'.bodies.getD i default := by
  refine ⟨rfl, ?_, forcesPhase_getD_static F w' i hstat,
    integratePhase_getD_static F w' i hstat⟩
  show (integratePhase F (resolutionPhase
    (forcesPhase F (World.narrow_phase F w.broad_phase)))).manifolds = []
  rw [show ∀ x : World, (integratePhase F x).manifolds = x.manifolds
    from fun _ => rfl]
  rw [resolutionPhase]
  split_ifs with hemp
  · exact List.isEmpty_iff.mp hemp
  · rfl

/-- C1 witness: the phase decomposition at a concrete world. -/
theorem update_phase_order_witness :
    World.update testOps (World.new 60 10) =
      integratePhase testOps (resolutionPhase (forcesPhase testOps
        (World.narrow_phase testOps (World.new 60 10).broad_phase))) :=
  (update_phase_order testOps (World.new 60 10)
    ((World.new 60 10).add_body
      (Body.platform_rectangle_aabb testOps 0 0 2 2 Material.DEFAULT))
    0 rfl).1

end Rustycs
